import Mathlib

/-!
rkalman: the geographic adaptation layer of the Kalman filter.

A shallow embedding of `geo/fast_geo_factors.go` (package `geo`) and
`geo_filter.go` (package `kalman`).

Conventions of the embedding.

* `float64` values are idealised as elements of a linearly ordered field with a
  floor function (package `geo`, so that the definitions run on `ℚ`) and as
  real numbers (package `kalman`, which needs `math.Sqrt`, `math.Sin`,
  `math.Cos`).  Rounding and infinities are outside the model; NaN is covered
  by the `float64` view of `Estimate` at the end of the definitions.
* A Go runtime panic `index out of range` is the value `none` of an `Option`.
* The generic estimator (`Filter`, `NewFilter`, `Filter.Observe`) is not part of
  the two files; its constructor and its update operation are parameters.
-/

namespace geo

variable {α : Type} [LinearOrderedField α] [FloorRing α]

/-- Pre-computed meters per degree of latitude, 0 to 90 degrees. -/
def metersPerDegreeLat : List α :=
  [
   110574.272700, 110574.610878, 110575.625009, 110577.313889, 110579.675511, 110582.707071,
   110586.404965, 110590.764801, 110595.781395, 110601.448784, 110607.760229, 110614.708223,
   110622.284500, 110630.480041, 110639.285090, 110648.689158, 110658.681041, 110669.248827,
   110680.379912, 110692.061014, 110704.278186, 110717.016837, 110730.261739, 110743.997053,
   110758.206344, 110772.872596, 110787.978236, 110803.505153, 110819.434716, 110835.747799,
   110852.424800, 110869.445665, 110886.789912, 110904.436651, 110922.364614, 110940.552173,
   110958.977372, 110977.617948, 110996.451360, 111015.454813, 111034.605288, 111053.879568,
   111073.254263, 111092.705844, 111112.210666, 111131.745000, 111151.285058, 111170.807026,
   111190.287090, 111209.701467, 111229.026434, 111248.238355, 111267.313713, 111286.229139,
   111304.961438, 111323.487623, 111341.784938, 111359.830892, 111377.603283, 111395.080231,
   111412.240200, 111429.062029, 111445.524959, 111461.608658, 111477.293248, 111492.559331,
   111507.388014, 111521.760933, 111535.660275, 111549.068805, 111561.969887, 111574.347503,
   111586.186278, 111597.471498, 111608.189131, 111618.325842, 111627.869014, 111636.806763,
   111645.127957, 111652.822225, 111659.879975, 111666.292406, 111672.051518, 111677.150126,
   111681.581866, 111685.341207, 111688.423454, 111690.824758, 111692.542121, 111693.573398,
   111693.917300
  ]

/-- Pre-computed meters per degree of longitude, 0 to 90 degrees. -/
def metersPerDegreeLng : List α :=
  [
   111319.458000, 111302.616974, 111252.098718, 111167.917694, 111050.098004, 110898.673387,
   110713.687212, 110495.192475, 110243.251793, 109957.937389, 109639.331091, 109287.524313,
   108902.618048, 108484.722850, 108033.958821, 107550.455593, 107034.352306, 106485.797595,
   105904.949560, 105291.975746, 104647.053118, 103970.368032, 103262.116205, 102522.502685,
   101751.741816, 100950.057205, 100117.681681, 99254.857257, 98361.835087, 97438.875421,
   96486.247557, 95504.229794, 94493.109377, 93453.182442, 92384.753961, 91288.137676,
   90163.656041, 89011.640152, 87832.429679, 86626.372793, 85393.826090, 84135.154513,
   82850.731268, 81540.937739, 80206.163399, 78846.805721, 77463.270075, 76055.969635,
   74625.325274, 73171.765457, 71695.726129, 70197.650606, 68677.989454, 67137.200370,
   65575.748052, 63994.104080, 62392.746775, 60772.161066, 59132.838355, 57475.276364,
   55799.979000, 54107.456194, 52398.223755, 50672.803207, 48931.721632, 47175.511501,
   45404.710512, 43619.861416, 41821.511839, 40010.214113, 38186.525088, 36351.005951,
   34504.222041, 32646.742657, 30779.140870, 28901.993324, 27015.880042, 25121.384226,
   23219.092055, 21309.592482, 19393.477028, 17471.339574, 15543.776155, 13611.384743,
   11674.765042, 9734.518271, 7791.246950, 5845.554682, 3898.045944, 1949.325862,
   0.000000
  ]

/-- Go `math.Floor`: the largest integral value not above `x`, as a float. -/
def mathFloor (x : α) : α := (⌊x⌋ : ℤ)

/-- Go `math.Ceil`: the least integral value not below `x`, as a float. -/
def mathCeil (x : α) : α := (⌈x⌉ : ℤ)

/-- Go `math.Abs`. -/
def mathAbs (x : α) : α := |x|

/-- Go conversion `int(x)` of a float: the fraction is discarded (truncation
towards zero). -/
def toInt (x : α) : ℤ := if 0 ≤ x then ⌊x⌋ else ⌈x⌉

/-- Go slice indexing `t[i]` with an `int` index: `none` is the runtime panic
`index out of range`, raised when `i < 0` or `i ≥ len(t)`. -/
def index (t : List α) (i : ℤ) : Option α :=
  if 0 ≤ i then t[i.toNat]? else none

/-- FastMetersPerDegreeLat returns meters per a latitude degree using a
pre-computed lookup table. -/
def FastMetersPerDegreeLat (lat : α) : Option α := do
  let i0 := toInt (mathAbs (mathFloor lat))
  let i1 := toInt (mathAbs (mathCeil lat))
  let x := lat - (i0 : α)
  let m0 ← index metersPerDegreeLat i0
  let m1 ← index metersPerDegreeLat i1
  pure (m0 + (m1 - m0) * x)

/-- FastMetersPerDegreeLng returns meters per a longitude degree using a
pre-computed lookup table. -/
def FastMetersPerDegreeLng (lng : α) : Option α := do
  let i0 := toInt (mathAbs (mathFloor lng))
  let i1 := toInt (mathAbs (mathCeil lng))
  let x := lng - (i0 : α)
  let m0 ← index metersPerDegreeLng i0
  let m1 ← index metersPerDegreeLng i1
  pure (m0 + (m1 - m0) * x)

/-- Proof device: the body shared by `FastMetersPerDegreeLat` and
`FastMetersPerDegreeLng`, over an arbitrary table `t`. -/
def interpolate (t : List α) (lat : α) : Option α := do
  let i0 := toInt (mathAbs (mathFloor lat))
  let i1 := toInt (mathAbs (mathCeil lat))
  let x := lat - (i0 : α)
  let m0 ← index t i0
  let m1 ← index t i1
  pure (m0 + (m1 - m0) * x)

end geo

namespace kalman

/-- Index of the latitude in the state vector. -/
def _LAT : ℕ := 0
/-- Index of the longitude in the state vector. -/
def _LNG : ℕ := 1
/-- Index of the altitude in the state vector. -/
def _ALTITUDE : ℕ := 2
/-- Index of the latitude speed in the state vector. -/
def _VLAT : ℕ := 3
/-- Index of the longitude speed in the state vector. -/
def _VLNG : ℕ := 4
/-- Meters per second. -/
noncomputable def minSpeedAccuracy : ℝ := 0.1
/-- Degrees, used to estimate altitude random step. -/
def incline : ℝ := 5

/-- Pre-computed to speed up computations. -/
noncomputable def sqrtOf2 : ℝ := Real.sqrt 2
/-- Pre-computed to speed up computations. -/
noncomputable def inclineFactor : ℝ := Real.sin (incline * Real.pi / 180.0)

/-- Modelled from the spec: the generic estimator's `Filter` type, which the two
files use but do not declare.  Its posterior state vector is absent (`nil`)
until an observation has been processed and has five or more components, read
with `AtVec`; the covariance matrix is read with `At`. -/
structure Filter where
  state : Option (ℕ → ℝ)
  cov : ℕ → ℕ → ℝ

/-- Modelled from the spec: the process-noise parameters of the generic
estimator's constructor, with the fields `NewGeoFilter` fills in. -/
structure ProcessNoise where
  ST : ℝ
  SX : ℝ
  SY : ℝ
  SZ : ℝ
  SVX : ℝ
  SVY : ℝ
  SVZ : ℝ

/-- Modelled from the spec: the measurement of the generic estimator's update
operation, with the fields `GeoFilter.Observe` fills in. -/
structure Observed where
  X : ℝ
  Y : ℝ
  Z : ℝ
  VX : ℝ
  VY : ℝ
  VZ : ℝ
  XA : ℝ
  YA : ℝ
  ZA : ℝ
  VXA : ℝ
  VYA : ℝ
  VZA : ℝ

/-- GeoFilter is a Kalman filter that deals with geographic coordinates and
altitude. -/
structure GeoFilter where
  filter : Filter

/-- GeoProcessNoise is used to initialize the process noise. -/
structure GeoProcessNoise where
  BaseLat : ℝ
  DistancePerSecond : ℝ
  SpeedPerSecond : ℝ

/-- GeoObserved represents a single observation, in geographical coordinates
and altitude. -/
structure GeoObserved where
  Lat : ℝ
  Lng : ℝ
  Altitude : ℝ
  Speed : ℝ
  SpeedAccuracy : ℝ
  Direction : ℝ
  DirectionAccuracy : ℝ
  HorizontalAccuracy : ℝ
  VerticalAccuracy : ℝ

/-- GeoEstimated contains estimated location, obtained by processing several
observed locations. -/
structure GeoEstimated where
  Lat : ℝ
  Lng : ℝ
  Altitude : ℝ
  Speed : ℝ
  Direction : ℝ
  HorizontalAccuracy : ℝ

/-- Accuracy of the latitude speed component, with the floor
`minSpeedAccuracy/metersPerDegreeLat`. -/
noncomputable def speedLatAccuracy (speed speedAccuracy directionRad directionRadAccuracy
    metersPerDegreeLat : ℝ) : ℝ :=
  let ds := Real.cos directionRad / metersPerDegreeLat * speedAccuracy
  let dr := -speed * Real.sin directionRad / metersPerDegreeLat * directionRadAccuracy
  max (Real.sqrt (ds * ds + dr * dr)) (minSpeedAccuracy / metersPerDegreeLat)

/-- Accuracy of the longitude speed component, with the floor
`minSpeedAccuracy/metersPerDegreeLng`. -/
noncomputable def speedLngAccuracy (speed speedAccuracy directionRad directionRadAccuracy
    metersPerDegreeLng : ℝ) : ℝ :=
  let ds := Real.sin directionRad / metersPerDegreeLng * speedAccuracy
  let dr := speed * Real.cos directionRad / metersPerDegreeLng * directionRadAccuracy
  max (Real.sqrt (ds * ds + dr * dr)) (minSpeedAccuracy / metersPerDegreeLng)

/-- NewGeoFilter creates and returns a new GeoFilter.  `NewFilter` is the
generic estimator's constructor; the outer `none` is a runtime panic. -/
noncomputable def NewGeoFilter {ε : Type} (NewFilter : ProcessNoise → Except ε Filter)
    (d : GeoProcessNoise) : Option (Except ε GeoFilter) := do
  let metersPerDegreeLat ← geo.FastMetersPerDegreeLat d.BaseLat
  let metersPerDegreeLng ← geo.FastMetersPerDegreeLng d.BaseLat
  let dx := d.DistancePerSecond / sqrtOf2 / metersPerDegreeLat
  let dy := d.DistancePerSecond / sqrtOf2 / metersPerDegreeLng
  let dz := d.DistancePerSecond * inclineFactor
  let dsvx := d.SpeedPerSecond / sqrtOf2 / metersPerDegreeLat
  let dsvy := d.SpeedPerSecond / sqrtOf2 / metersPerDegreeLng
  let dsvz := d.SpeedPerSecond * inclineFactor
  match NewFilter
      { ST := 1.0, SX := dx, SY := dy, SZ := dz, SVX := dsvx, SVY := dsvy, SVZ := dsvz } with
  | .error err => pure (.error err)
  | .ok f => pure (.ok { filter := f })

/-- Observe converts a geographic observation into a measurement and hands it,
with the elapsed time, to the estimator.  `filterObserve` is the generic
estimator's update `Filter.Observe`: it returns the updated estimator and the
error it reports (`none` for `nil`).  The outer `none` is a runtime panic. -/
noncomputable def GeoFilter.Observe {ε : Type}
    (filterObserve : Filter → ℝ → Observed → Filter × Option ε)
    (g : GeoFilter) (td : ℝ) (ob : GeoObserved) : Option (GeoFilter × Option ε) := do
  let metersPerDegreeLat ← geo.FastMetersPerDegreeLat ob.Lat
  let metersPerDegreeLng ← geo.FastMetersPerDegreeLng ob.Lat
  let directionRad := ob.Direction * Real.pi / 180.0
  let directionRadAccuracy := ob.DirectionAccuracy * Real.pi / 180.0
  let speedLat := ob.Speed * Real.cos directionRad / metersPerDegreeLat
  let speedLng := ob.Speed * Real.sin directionRad / metersPerDegreeLng
  let ob1 : Observed :=
    { X := ob.Lat
      Y := ob.Lng
      Z := ob.Altitude
      VX := speedLat
      VY := speedLng
      VZ := 0.0
      XA := ob.HorizontalAccuracy / metersPerDegreeLat
      YA := ob.HorizontalAccuracy / metersPerDegreeLng
      ZA := ob.VerticalAccuracy
      VXA := speedLatAccuracy ob.Speed ob.SpeedAccuracy directionRad directionRadAccuracy
        metersPerDegreeLat
      VYA := speedLngAccuracy ob.Speed ob.SpeedAccuracy directionRad directionRadAccuracy
        metersPerDegreeLng
      VZA := minSpeedAccuracy }
  let r := filterObserve g.filter td ob1
  pure ({ filter := r.1 }, r.2)

/-- Estimate returns the best location estimate.  The inner `none` is the `nil`
result (no estimate); the outer `none` is a runtime panic. -/
noncomputable def GeoFilter.Estimate (g : GeoFilter) : Option (Option GeoEstimated) :=
  match g.filter.state with
  | none => some none
  | some state =>
    let lat := state _LAT
    if lat < -90 ∨ lat > 90 then some none
    else do
      let metersPerDegreeLat ← geo.FastMetersPerDegreeLat lat
      let metersPerDegreeLng ← geo.FastMetersPerDegreeLng lat
      let speedLatMeters := state _VLAT * metersPerDegreeLat
      let speedLngMeters := state _VLNG * metersPerDegreeLng
      let speed := Real.sqrt (speedLatMeters * speedLatMeters + speedLngMeters * speedLngMeters)
      let haLatSquared := g.filter.cov _LAT _LAT * metersPerDegreeLat * metersPerDegreeLat
      let haLngSquared := g.filter.cov _LNG _LNG * metersPerDegreeLng * metersPerDegreeLng
      let ha := max (Real.sqrt haLatSquared) (Real.sqrt haLngSquared)
      pure (some
        { Lat := state _LAT
          Lng := state _LNG
          Altitude := state _ALTITUDE
          Speed := speed
          Direction := 0
          HorizontalAccuracy := ha })

end kalman

/-! ## NaN: the `float64` view of the estimate extraction

The real-number model above has no NaN.  In Go a NaN latitude fails both
comparisons of the guard of `Estimate`, so the definitions below repeat the
factor lookups and `Estimate` over `float64` values that are a number or NaN.
Infinities and rounding stay outside the model. -/

namespace geo

/-- A Go `float64` as far as the control flow of the program tells values
apart: NaN, or a number, idealised as a real. -/
inductive float64 where
  | NaN : float64
  | num (x : ℝ) : float64

/-- Go `a < b` on `float64`: false when an operand is NaN. -/
noncomputable def float64.lt : float64 → float64 → Bool
  | .num x, .num y => decide (x < y)
  | _, _ => false

/-- Go `a > b` on `float64`: false when an operand is NaN. -/
noncomputable def float64.gt (a b : float64) : Bool := float64.lt b a

/-- Go `a * b` on `float64`: NaN when an operand is NaN. -/
noncomputable def float64.mul : float64 → float64 → float64
  | .num x, .num y => .num (x * y)
  | _, _ => .NaN

/-- Go `a + b` on `float64`: NaN when an operand is NaN. -/
noncomputable def float64.add : float64 → float64 → float64
  | .num x, .num y => .num (x + y)
  | _, _ => .NaN

/-- Go `math.Sqrt`: NaN at NaN and at a negative number. -/
noncomputable def float64.sqrt : float64 → float64
  | .num x => if x < 0 then .NaN else .num (Real.sqrt x)
  | .NaN => .NaN

/-- Go `math.Max`: NaN when an operand is NaN. -/
noncomputable def float64.max : float64 → float64 → float64
  | .num x, .num y => .num (Max.max x y)
  | _, _ => .NaN

/-- FastMetersPerDegreeLat at a `float64` argument.  At a number it is
`FastMetersPerDegreeLat`.  At NaN, `math.Floor`, `math.Ceil` and `math.Abs`
return NaN and the conversion `int(NaN)` is implementation-dependent (`intNaN`;
the least `int64` with the gc compiler on amd64); both lookups use that index,
and the weight `lat - float64(i0)` and with it the result are NaN. -/
noncomputable def FastMetersPerDegreeLat64 (intNaN : ℤ) (lat : float64) : Option float64 :=
  match lat with
  | .num lat => (FastMetersPerDegreeLat lat).map float64.num
  | .NaN => do
    let i0 := intNaN
    let i1 := intNaN
    let _ ← index (metersPerDegreeLat : List ℝ) i0
    let _ ← index (metersPerDegreeLat : List ℝ) i1
    pure float64.NaN

/-- FastMetersPerDegreeLng at a `float64` argument, as
`FastMetersPerDegreeLat64`. -/
noncomputable def FastMetersPerDegreeLng64 (intNaN : ℤ) (lng : float64) : Option float64 :=
  match lng with
  | .num lng => (FastMetersPerDegreeLng lng).map float64.num
  | .NaN => do
    let i0 := intNaN
    let i1 := intNaN
    let _ ← index (metersPerDegreeLng : List ℝ) i0
    let _ ← index (metersPerDegreeLng : List ℝ) i1
    pure float64.NaN

end geo

namespace kalman

/-- Modelled from the spec: the generic estimator's `Filter` with `float64`
components, so that a component of the state can be NaN. -/
structure Filter64 where
  state : Option (ℕ → geo.float64)
  cov : ℕ → ℕ → geo.float64

/-- GeoFilter over `Filter64`. -/
structure GeoFilter64 where
  filter : Filter64

/-- GeoEstimated with `float64` fields. -/
structure GeoEstimated64 where
  Lat : geo.float64
  Lng : geo.float64
  Altitude : geo.float64
  Speed : geo.float64
  Direction : geo.float64
  HorizontalAccuracy : geo.float64

/-- Estimate over `float64`: the body of `GeoFilter.Estimate` with Go's
comparisons and arithmetic on values that can be NaN.  The inner `none` is the
`nil` result; the outer `none` is a runtime panic. -/
noncomputable def GeoFilter64.Estimate (intNaN : ℤ) (g : GeoFilter64) :
    Option (Option GeoEstimated64) :=
  match g.filter.state with
  | none => some none
  | some state =>
    let lat := state _LAT
    if lat.lt (.num (-90)) || lat.gt (.num 90) then some none
    else do
      let metersPerDegreeLat ← geo.FastMetersPerDegreeLat64 intNaN lat
      let metersPerDegreeLng ← geo.FastMetersPerDegreeLng64 intNaN lat
      let speedLatMeters := (state _VLAT).mul metersPerDegreeLat
      let speedLngMeters := (state _VLNG).mul metersPerDegreeLng
      let speed :=
        ((speedLatMeters.mul speedLatMeters).add (speedLngMeters.mul speedLngMeters)).sqrt
      let haLatSquared := ((g.filter.cov _LAT _LAT).mul metersPerDegreeLat).mul metersPerDegreeLat
      let haLngSquared := ((g.filter.cov _LNG _LNG).mul metersPerDegreeLng).mul metersPerDegreeLng
      let ha := haLatSquared.sqrt.max haLngSquared.sqrt
      pure (some
        { Lat := state _LAT
          Lng := state _LNG
          Altitude := state _ALTITUDE
          Speed := speed
          Direction := .num 0
          HorizontalAccuracy := ha })

/-- Proof device: the real-valued estimator as a `float64` estimator. -/
noncomputable def Filter.to64 (f : Filter) : Filter64 :=
  { state := f.state.map fun state i => geo.float64.num (state i)
    cov := fun i j => geo.float64.num (f.cov i j) }

/-- Proof device: the real-valued estimate as a `float64` estimate. -/
noncomputable def GeoEstimated.to64 (e : GeoEstimated) : GeoEstimated64 :=
  { Lat := .num e.Lat
    Lng := .num e.Lng
    Altitude := .num e.Altitude
    Speed := .num e.Speed
    Direction := .num e.Direction
    HorizontalAccuracy := .num e.HorizontalAccuracy }

end kalman

/-! ## Package `geo`: index derivation and table lookups -/

namespace geo

section Lookup

variable {α : Type}

theorem index_isSome (t : List α) (ht : t.length = 91) (i : ℤ) (h0 : 0 ≤ i) (h90 : i ≤ 90) :
    ∃ m, index t i = some m ∧ t[i.toNat]? = some m := by
  have hlt : i.toNat < t.length := by omega
  refine ⟨t[i.toNat], ?_, List.getElem?_eq_getElem hlt⟩
  unfold index
  rw [if_pos h0, List.getElem?_eq_getElem hlt]

theorem index_eq_none (t : List α) (ht : t.length = 91) (i : ℤ) (h : 90 < i) :
    index t i = none := by
  unfold index
  rw [if_pos (by omega)]
  exact List.getElem?_eq_none (by omega)

theorem index_eq_none_iff (t : List α) (ht : t.length = 91) (i : ℤ) :
    index t i = none ↔ i < 0 ∨ 90 < i := by
  constructor
  · intro h
    by_contra hc
    push_neg at hc
    obtain ⟨m, hm, _⟩ := index_isSome t ht i hc.1 hc.2
    rw [hm] at h
    exact Option.noConfusion h
  · rintro (h | h)
    · unfold index
      rw [if_neg (by omega)]
    · exact index_eq_none t ht i h

/-- Adjacent entries of a table whose entries are pairwise chained by `≠`. -/
theorem adjacent_ne (t : List α) (ht : t.length = 91) (hc : List.Chain' (· ≠ ·) t)
    (i : ℕ) (hi : i < 90) (m0 m1 : α) (h0 : t[i]? = some m0) (h1 : t[i + 1]? = some m1) :
    m0 ≠ m1 := by
  have h := List.chain'_iff_get.mp hc i (by omega)
  have e0 : t[i]? = some (t.get ⟨i, by omega⟩) := List.getElem?_eq_getElem (by omega)
  have e1 : t[i + 1]? = some (t.get ⟨i + 1, by omega⟩) := List.getElem?_eq_getElem (by omega)
  rw [e0] at h0
  rw [e1] at h1
  rw [← Option.some.inj h0, ← Option.some.inj h1]
  exact h

end Lookup

section Tables

variable {α : Type} [LinearOrderedField α]

theorem metersPerDegreeLat_length : (metersPerDegreeLat : List α).length = 91 := rfl

theorem metersPerDegreeLng_length : (metersPerDegreeLng : List α).length = 91 := rfl

/-- Each entry of the latitude table is below the next one. -/
theorem metersPerDegreeLat_chain : List.Chain' (· < ·) (metersPerDegreeLat : List α) := by
  simp only [metersPerDegreeLat, List.chain'_cons, List.chain'_singleton, and_true]
  norm_num

/-- Each entry of the longitude table is above the next one. -/
theorem metersPerDegreeLng_chain : List.Chain' (· > ·) (metersPerDegreeLng : List α) := by
  simp only [metersPerDegreeLng, List.chain'_cons, List.chain'_singleton, and_true]
  norm_num

theorem lerp_between (m0 m1 x : α) (hx0 : 0 ≤ x) (hx1 : x ≤ 1) :
    min m0 m1 ≤ m0 + (m1 - m0) * x ∧ m0 + (m1 - m0) * x ≤ max m0 m1 := by
  rcases le_total m0 m1 with h | h
  · rw [min_eq_left h, max_eq_right h]
    constructor
    · nlinarith [mul_nonneg (sub_nonneg.mpr h) hx0]
    · nlinarith [mul_nonneg (sub_nonneg.mpr h) (sub_nonneg.mpr hx1)]
  · rw [min_eq_right h, max_eq_left h]
    constructor
    · nlinarith [mul_nonneg (sub_nonneg.mpr h) (sub_nonneg.mpr hx1)]
    · nlinarith [mul_nonneg (sub_nonneg.mpr h) hx0]

theorem lerp_ne (m0 m1 x : α) (hx0 : 0 < x) (hx1 : x < 1) (hne : m0 ≠ m1) :
    m0 + (m1 - m0) * x ≠ m0 ∧ m0 + (m1 - m0) * x ≠ m1 := by
  have hd : m1 - m0 ≠ 0 := sub_ne_zero.mpr (Ne.symm hne)
  constructor
  · intro h
    have : (m1 - m0) * x = 0 := by linarith
    rcases mul_eq_zero.mp this with h' | h'
    · exact hd h'
    · exact (ne_of_gt hx0) h'
  · intro h
    have : (m1 - m0) * (x - 1) = 0 := by linarith
    rcases mul_eq_zero.mp this with h' | h'
    · exact hd h'
    · exact (ne_of_lt hx1) (by linarith)

end Tables

section Interpolation

variable {α : Type} [LinearOrderedField α] [FloorRing α]

theorem FastMetersPerDegreeLat_eq (lat : α) :
    FastMetersPerDegreeLat lat = interpolate metersPerDegreeLat lat := rfl

theorem FastMetersPerDegreeLng_eq (lng : α) :
    FastMetersPerDegreeLng lng = interpolate metersPerDegreeLng lng := rfl

theorem toInt_abs_intCast (n : ℤ) : toInt (mathAbs ((n : ℤ) : α)) = |n| := by
  unfold toInt mathAbs
  rw [if_pos (abs_nonneg _), ← Int.cast_abs, Int.floor_intCast]

theorem i0_eq (lat : α) : toInt (mathAbs (mathFloor lat)) = |⌊lat⌋| :=
  toInt_abs_intCast _

theorem i1_eq (lat : α) : toInt (mathAbs (mathCeil lat)) = |⌈lat⌉| :=
  toInt_abs_intCast _

theorem interpolate_unfold (t : List α) (lat : α) :
    interpolate t lat =
      (index t |⌊lat⌋|).bind fun m0 =>
        (index t |⌈lat⌉|).bind fun m1 =>
          some (m0 + (m1 - m0) * (lat - ((|⌊lat⌋| : ℤ) : α))) := by
  unfold interpolate
  simp only [i0_eq, i1_eq]
  rfl

theorem abs_floor_le (lat : α) (h1 : -90 ≤ lat) (h2 : lat ≤ 90) : |⌊lat⌋| ≤ 90 := by
  have ha : ⌊lat⌋ ≤ 90 := by
    have : (⌊lat⌋ : α) ≤ ((90 : ℤ) : α) := by
      push_cast
      exact (Int.floor_le lat).trans h2
    exact_mod_cast this
  have hb : -90 ≤ ⌊lat⌋ := Int.le_floor.mpr (by push_cast; exact h1)
  exact abs_le.mpr ⟨hb, ha⟩

theorem abs_ceil_le (lat : α) (h1 : -90 ≤ lat) (h2 : lat ≤ 90) : |⌈lat⌉| ≤ 90 := by
  have ha : ⌈lat⌉ ≤ 90 := Int.ceil_le.mpr (by push_cast; exact h2)
  have hb : -90 ≤ ⌈lat⌉ := by
    have : (((-90 : ℤ)) : α) ≤ (⌈lat⌉ : α) := by
      push_cast
      exact h1.trans (Int.le_ceil lat)
    exact_mod_cast this
  exact abs_le.mpr ⟨hb, ha⟩

/-- Within `[-90, 90]` both lookups succeed and the function returns the
interpolation formula of the source. -/
theorem interpolate_in_range (t : List α) (ht : t.length = 91) (lat : α)
    (h1 : -90 ≤ lat) (h2 : lat ≤ 90) :
    ∃ m0 m1, index t |⌊lat⌋| = some m0 ∧ index t |⌈lat⌉| = some m1 ∧
      t[(|⌊lat⌋|).toNat]? = some m0 ∧ t[(|⌈lat⌉|).toNat]? = some m1 ∧
      interpolate t lat = some (m0 + (m1 - m0) * (lat - ((|⌊lat⌋| : ℤ) : α))) := by
  obtain ⟨m0, hm0, hg0⟩ := index_isSome t ht |⌊lat⌋| (abs_nonneg _) (abs_floor_le lat h1 h2)
  obtain ⟨m1, hm1, hg1⟩ := index_isSome t ht |⌈lat⌉| (abs_nonneg _) (abs_ceil_le lat h1 h2)
  refine ⟨m0, m1, hm0, hm1, hg0, hg1, ?_⟩
  rw [interpolate_unfold, hm0, hm1]
  rfl

/-- Outside `[-90, 90]` one of the two lookups is out of range: the function
panics. -/
theorem interpolate_out_of_range (t : List α) (ht : t.length = 91) (lat : α)
    (h : 90 < |lat|) : interpolate t lat = none := by
  rw [interpolate_unfold]
  rcases lt_abs.mp h with h | h
  · have hc : 90 < |⌈lat⌉| := by
      have : (90 : ℤ) < ⌈lat⌉ := Int.lt_ceil.mpr (by push_cast; exact h)
      exact lt_of_lt_of_le this (le_abs_self _)
    rw [index_eq_none t ht _ hc]
    cases index t |⌊lat⌋| <;> rfl
  · have hf : 90 < |⌊lat⌋| := by
      have : ⌊lat⌋ < -90 := Int.floor_lt.mpr (by push_cast; linarith)
      have h2 : (90 : ℤ) < -⌊lat⌋ := by omega
      exact lt_of_lt_of_le h2 (neg_le_abs _)
    rw [index_eq_none t ht _ hf]
    rfl

theorem interpolate_isSome_iff (t : List α) (ht : t.length = 91) (lat : α) :
    (∃ v, interpolate t lat = some v) ↔ -90 ≤ lat ∧ lat ≤ 90 := by
  constructor
  · rintro ⟨v, hv⟩
    by_contra hc
    have : 90 < |lat| := by
      rw [lt_abs]
      by_contra hn
      push_neg at hn
      exact hc ⟨by linarith [hn.2], hn.1⟩
    rw [interpolate_out_of_range t ht lat this] at hv
    exact Option.noConfusion hv
  · rintro ⟨h1, h2⟩
    obtain ⟨m0, m1, _, _, _, _, h⟩ := interpolate_in_range t ht lat h1 h2
    exact ⟨_, h⟩

end Interpolation

end geo

/-! ## Package `geo`: the interpolation on the northern half `[0, 90)` -/

namespace geo

section Between

variable {α : Type} [LinearOrderedField α] [FloorRing α]

/-- On `[0, 90)` the function returns a value between the two table entries
around the latitude: the left entry at an integer latitude, a value different
from both entries otherwise. -/
theorem interpolate_between (t : List α) (ht : t.length = 91) (hc : List.Chain' (· ≠ ·) t)
    (L : α) (h0 : 0 ≤ L) (h90 : L < 90) :
    ∃ m0 m1 v, t[⌊L⌋.toNat]? = some m0 ∧ t[⌈L⌉.toNat]? = some m1 ∧
      interpolate t L = some v ∧ min m0 m1 ≤ v ∧ v ≤ max m0 m1 ∧
      ((⌊L⌋ : α) = L → v = m0) ∧ ((⌊L⌋ : α) ≠ L → v ≠ m0 ∧ v ≠ m1) := by
  have hf0 : 0 ≤ ⌊L⌋ := Int.floor_nonneg.mpr h0
  have hc0 : 0 ≤ ⌈L⌉ := Int.ceil_nonneg h0
  have hfa : |⌊L⌋| = ⌊L⌋ := abs_of_nonneg hf0
  have hca : |⌈L⌉| = ⌈L⌉ := abs_of_nonneg hc0
  obtain ⟨m0, m1, -, -, g0, g1, hv⟩ :=
    interpolate_in_range t ht L (by linarith) (le_of_lt h90)
  rw [hfa] at g0 hv
  rw [hca] at g1
  have hx0 : 0 ≤ L - (⌊L⌋ : α) := sub_nonneg.mpr (Int.floor_le L)
  have hx1 : L - (⌊L⌋ : α) < 1 := by linarith [Int.lt_floor_add_one L]
  have hb := lerp_between m0 m1 (L - (⌊L⌋ : α)) hx0 (le_of_lt hx1)
  refine ⟨m0, m1, _, g0, g1, hv, hb.1, hb.2, ?_, ?_⟩
  · intro hint
    rw [hint, sub_self, mul_zero, add_zero]
  · intro hnint
    have hlt : (⌊L⌋ : α) < L := lt_of_le_of_ne (Int.floor_le L) hnint
    have hceil : ⌈L⌉ = ⌊L⌋ + 1 := by
      rw [Int.ceil_eq_iff]
      push_cast
      constructor
      · linarith
      · exact le_of_lt (Int.lt_floor_add_one L)
    have hlt90 : ⌊L⌋ < 90 := Int.floor_lt.mpr (by push_cast; exact h90)
    have hnat : ⌈L⌉.toNat = ⌊L⌋.toNat + 1 := by omega
    rw [hnat] at g1
    have hne := adjacent_ne t ht hc ⌊L⌋.toNat (by omega) m0 m1 g0 g1
    exact lerp_ne m0 m1 (L - (⌊L⌋ : α)) (sub_pos.mpr hlt) hx1 hne

end Between

end geo

/-! ## Claims on the coordinate factor functions -/

namespace geo

/-- Claim C1, evaluated on the code: the factor functions are not symmetric at
the fractional latitude `0.5`.  At `0.5` the indices are `0` and `1` and the
weight is `0.5 - 0`; at `-0.5` the indices are `1` and `0` and the weight is
`-0.5 - 1`, so both functions return a different value there. -/
theorem Fast_not_symmetric_at_half :
    FastMetersPerDegreeLat (0.5 : ℚ) = some 110574.441789 ∧
    FastMetersPerDegreeLat (-0.5 : ℚ) = some 110575.118145 ∧
    FastMetersPerDegreeLng (0.5 : ℚ) = some 111311.037487 ∧
    FastMetersPerDegreeLng (-0.5 : ℚ) = some 111277.355435 ∧
    FastMetersPerDegreeLat (-0.5 : ℚ) ≠ FastMetersPerDegreeLat (0.5 : ℚ) ∧
    FastMetersPerDegreeLng (-0.5 : ℚ) ≠ FastMetersPerDegreeLng (0.5 : ℚ) := by
  have hf : ⌊(0.5 : ℚ)⌋ = 0 := by norm_num [Int.floor_eq_iff]
  have hc : ⌈(0.5 : ℚ)⌉ = 1 := by norm_num [Int.ceil_eq_iff]
  have hf' : ⌊(-0.5 : ℚ)⌋ = -1 := by norm_num [Int.floor_eq_iff]
  have hc' : ⌈(-0.5 : ℚ)⌉ = 0 := by norm_num [Int.ceil_eq_iff]
  have a1 : FastMetersPerDegreeLat (0.5 : ℚ) = some 110574.441789 := by
    rw [FastMetersPerDegreeLat_eq, interpolate_unfold, hf, hc]
    norm_num [index, metersPerDegreeLat]
  have a2 : FastMetersPerDegreeLat (-0.5 : ℚ) = some 110575.118145 := by
    rw [FastMetersPerDegreeLat_eq, interpolate_unfold, hf', hc']
    norm_num [index, metersPerDegreeLat]
  have a3 : FastMetersPerDegreeLng (0.5 : ℚ) = some 111311.037487 := by
    rw [FastMetersPerDegreeLng_eq, interpolate_unfold, hf, hc]
    norm_num [index, metersPerDegreeLng]
  have a4 : FastMetersPerDegreeLng (-0.5 : ℚ) = some 111277.355435 := by
    rw [FastMetersPerDegreeLng_eq, interpolate_unfold, hf', hc']
    norm_num [index, metersPerDegreeLng]
  refine ⟨a1, a2, a3, a4, ?_, ?_⟩
  · rw [a1, a2]
    norm_num
  · rw [a3, a4]
    norm_num

section Claims

variable {α : Type} [LinearOrderedField α] [FloorRing α]

/-- Claim C2: for every latitude `L` with `0 ≤ L < 90`, `FastMetersPerDegreeLat L`
returns a value between `metersPerDegreeLat[floor L]` and
`metersPerDegreeLat[ceil L]` inclusive; the value is the table entry at `L`
when `L` is an integer and differs from both entries when it is not.  The same
holds for `FastMetersPerDegreeLng` with `metersPerDegreeLng`. -/
theorem Fast_between_table_entries (L : α) (h0 : 0 ≤ L) (h90 : L < 90) :
    (∃ m0 m1 v, (metersPerDegreeLat : List α)[⌊L⌋.toNat]? = some m0 ∧
      (metersPerDegreeLat : List α)[⌈L⌉.toNat]? = some m1 ∧
      FastMetersPerDegreeLat L = some v ∧ min m0 m1 ≤ v ∧ v ≤ max m0 m1 ∧
      ((⌊L⌋ : α) = L → v = m0) ∧ ((⌊L⌋ : α) ≠ L → v ≠ m0 ∧ v ≠ m1)) ∧
    (∃ m0 m1 v, (metersPerDegreeLng : List α)[⌊L⌋.toNat]? = some m0 ∧
      (metersPerDegreeLng : List α)[⌈L⌉.toNat]? = some m1 ∧
      FastMetersPerDegreeLng L = some v ∧ min m0 m1 ≤ v ∧ v ≤ max m0 m1 ∧
      ((⌊L⌋ : α) = L → v = m0) ∧ ((⌊L⌋ : α) ≠ L → v ≠ m0 ∧ v ≠ m1)) :=
  ⟨interpolate_between metersPerDegreeLat metersPerDegreeLat_length
      (metersPerDegreeLat_chain.imp fun _ _ h => ne_of_lt h) L h0 h90,
   interpolate_between metersPerDegreeLng metersPerDegreeLng_length
      (metersPerDegreeLng_chain.imp fun _ _ h => ne_of_gt h) L h0 h90⟩

/-- Claim C3, evaluated on the code: for every latitude whose absolute value
exceeds 90 neither function clamps or rejects the input; one of the two table
accesses is out of range and the function panics. -/
theorem Fast_panics_out_of_range (lat : α) (h : 90 < |lat|) :
    FastMetersPerDegreeLat lat = none ∧ FastMetersPerDegreeLng lat = none ∧
    (toInt (mathAbs (mathFloor lat)) > 90 ∨ toInt (mathAbs (mathCeil lat)) > 90) := by
  refine ⟨interpolate_out_of_range _ metersPerDegreeLat_length lat h,
    interpolate_out_of_range _ metersPerDegreeLng_length lat h, ?_⟩
  rw [i0_eq, i1_eq]
  by_contra hc
  push_neg at hc
  have h1 := (index_isSome (metersPerDegreeLat : List α) metersPerDegreeLat_length _
    (abs_nonneg _) hc.1)
  have h2 := (index_isSome (metersPerDegreeLat : List α) metersPerDegreeLat_length _
    (abs_nonneg _) hc.2)
  obtain ⟨m0, hm0, -⟩ := h1
  obtain ⟨m1, hm1, -⟩ := h2
  have := interpolate_out_of_range _ metersPerDegreeLat_length lat h
  rw [interpolate_unfold, hm0, hm1] at this
  exact Option.noConfusion this

end Claims

theorem Fast_between_table_entries_witness :
    (0 : ℚ) ≤ 45.3 ∧ (45.3 : ℚ) < 90 ∧
    ((∃ m0 m1 v, (metersPerDegreeLat : List ℚ)[⌊(45.3 : ℚ)⌋.toNat]? = some m0 ∧
      (metersPerDegreeLat : List ℚ)[⌈(45.3 : ℚ)⌉.toNat]? = some m1 ∧
      FastMetersPerDegreeLat (45.3 : ℚ) = some v ∧ min m0 m1 ≤ v ∧ v ≤ max m0 m1 ∧
      (((⌊(45.3 : ℚ)⌋ : ℤ) : ℚ) = 45.3 → v = m0) ∧
      (((⌊(45.3 : ℚ)⌋ : ℤ) : ℚ) ≠ 45.3 → v ≠ m0 ∧ v ≠ m1)) ∧
    (∃ m0 m1 v, (metersPerDegreeLng : List ℚ)[⌊(45.3 : ℚ)⌋.toNat]? = some m0 ∧
      (metersPerDegreeLng : List ℚ)[⌈(45.3 : ℚ)⌉.toNat]? = some m1 ∧
      FastMetersPerDegreeLng (45.3 : ℚ) = some v ∧ min m0 m1 ≤ v ∧ v ≤ max m0 m1 ∧
      (((⌊(45.3 : ℚ)⌋ : ℤ) : ℚ) = 45.3 → v = m0) ∧
      (((⌊(45.3 : ℚ)⌋ : ℤ) : ℚ) ≠ 45.3 → v ≠ m0 ∧ v ≠ m1))) :=
  ⟨by norm_num, by norm_num, Fast_between_table_entries (45.3 : ℚ) (by norm_num) (by norm_num)⟩

theorem Fast_panics_out_of_range_witness :
    (90 : ℚ) < |(91 : ℚ)| ∧
    (FastMetersPerDegreeLat (91 : ℚ) = none ∧ FastMetersPerDegreeLng (91 : ℚ) = none ∧
    (toInt (mathAbs (mathFloor (91 : ℚ))) > 90 ∨ toInt (mathAbs (mathCeil (91 : ℚ))) > 90)) :=
  ⟨by norm_num, Fast_panics_out_of_range (91 : ℚ) (by norm_num)⟩

end geo

/-! ## Package `kalman`: the geographic filter -/

namespace kalman

/-- The measurement `GeoFilter.Observe` builds from an observation and the two
coordinate factors, written out field by field. -/
theorem Observe_of_factors {ε : Type} (filterObserve : Filter → ℝ → Observed → Filter × Option ε)
    (g : GeoFilter) (td : ℝ) (ob : GeoObserved) (mLat mLng : ℝ)
    (hLat : geo.FastMetersPerDegreeLat ob.Lat = some mLat)
    (hLng : geo.FastMetersPerDegreeLng ob.Lat = some mLng) :
    g.Observe filterObserve td ob =
      some ({ filter := (filterObserve g.filter td
          { X := ob.Lat, Y := ob.Lng, Z := ob.Altitude,
            VX := ob.Speed * Real.cos (ob.Direction * Real.pi / 180) / mLat,
            VY := ob.Speed * Real.sin (ob.Direction * Real.pi / 180) / mLng,
            VZ := 0,
            XA := ob.HorizontalAccuracy / mLat,
            YA := ob.HorizontalAccuracy / mLng,
            ZA := ob.VerticalAccuracy,
            VXA := speedLatAccuracy ob.Speed ob.SpeedAccuracy (ob.Direction * Real.pi / 180)
              (ob.DirectionAccuracy * Real.pi / 180) mLat,
            VYA := speedLngAccuracy ob.Speed ob.SpeedAccuracy (ob.Direction * Real.pi / 180)
              (ob.DirectionAccuracy * Real.pi / 180) mLng,
            VZA := 0.1 }).1 },
        (filterObserve g.filter td
          { X := ob.Lat, Y := ob.Lng, Z := ob.Altitude,
            VX := ob.Speed * Real.cos (ob.Direction * Real.pi / 180) / mLat,
            VY := ob.Speed * Real.sin (ob.Direction * Real.pi / 180) / mLng,
            VZ := 0,
            XA := ob.HorizontalAccuracy / mLat,
            YA := ob.HorizontalAccuracy / mLng,
            ZA := ob.VerticalAccuracy,
            VXA := speedLatAccuracy ob.Speed ob.SpeedAccuracy (ob.Direction * Real.pi / 180)
              (ob.DirectionAccuracy * Real.pi / 180) mLat,
            VYA := speedLngAccuracy ob.Speed ob.SpeedAccuracy (ob.Direction * Real.pi / 180)
              (ob.DirectionAccuracy * Real.pi / 180) mLng,
            VZA := 0.1 }).2) := by
  unfold GeoFilter.Observe
  rw [hLat, hLng]
  have e1 : (180.0 : ℝ) = 180 := by norm_num
  have e2 : (0.0 : ℝ) = 0 := by norm_num
  simp only [Option.bind_eq_bind, Option.some_bind, Option.pure_def, minSpeedAccuracy, e1, e2]

/-- A latitude within `[-90, 90]` has both coordinate factors. -/
theorem factors_in_range (lat : ℝ) (h1 : -90 ≤ lat) (h2 : lat ≤ 90) :
    ∃ mLat mLng, geo.FastMetersPerDegreeLat lat = some mLat ∧
      geo.FastMetersPerDegreeLng lat = some mLng := by
  obtain ⟨a0, a1, -, -, -, -, ha⟩ :=
    geo.interpolate_in_range (geo.metersPerDegreeLat : List ℝ) geo.metersPerDegreeLat_length
      lat h1 h2
  obtain ⟨b0, b1, -, -, -, -, hb⟩ :=
    geo.interpolate_in_range (geo.metersPerDegreeLng : List ℝ) geo.metersPerDegreeLng_length
      lat h1 h2
  exact ⟨_, _, ha, hb⟩

/-- The estimate `GeoFilter.Estimate` decodes from a state whose latitude passes
the guard, written out field by field. -/
theorem Estimate_of_factors (g : GeoFilter) (state : ℕ → ℝ) (mLat mLng : ℝ)
    (hs : g.filter.state = some state) (h1 : -90 ≤ state _LAT) (h2 : state _LAT ≤ 90)
    (hLat : geo.FastMetersPerDegreeLat (state _LAT) = some mLat)
    (hLng : geo.FastMetersPerDegreeLng (state _LAT) = some mLng) :
    g.Estimate = some (some
      { Lat := state _LAT
        Lng := state _LNG
        Altitude := state _ALTITUDE
        Speed := Real.sqrt (state _VLAT * mLat * (state _VLAT * mLat) +
          state _VLNG * mLng * (state _VLNG * mLng))
        Direction := 0
        HorizontalAccuracy := max (Real.sqrt (g.filter.cov _LAT _LAT * mLat * mLat))
          (Real.sqrt (g.filter.cov _LNG _LNG * mLng * mLng)) }) := by
  unfold GeoFilter.Estimate
  rw [hs]
  have hg : ¬ (state _LAT < -90 ∨ state _LAT > 90) := by
    push_neg
    exact ⟨h1, h2⟩
  simp only [if_neg hg, hLat, hLng, Option.bind_eq_bind, Option.some_bind, Option.pure_def]

/-- A state whose latitude fails the guard yields no estimate. -/
theorem Estimate_of_guard (g : GeoFilter) (state : ℕ → ℝ)
    (hs : g.filter.state = some state) (h : state _LAT < -90 ∨ state _LAT > 90) :
    g.Estimate = some none := by
  unfold GeoFilter.Estimate
  rw [hs]
  simp only [if_pos h]

/-- A filter without a state yields no estimate. -/
theorem Estimate_of_no_state (g : GeoFilter) (hs : g.filter.state = none) :
    g.Estimate = some none := by
  unfold GeoFilter.Estimate
  rw [hs]

/-- A state whose latitude passes the guard yields an estimate. -/
theorem Estimate_in_range (g : GeoFilter) (state : ℕ → ℝ)
    (hs : g.filter.state = some state) (h1 : -90 ≤ state _LAT) (h2 : state _LAT ≤ 90) :
    ∃ e, g.Estimate = some (some e) := by
  obtain ⟨mLat, mLng, hLat, hLng⟩ := factors_in_range (state _LAT) h1 h2
  exact ⟨_, Estimate_of_factors g state mLat mLng hs h1 h2 hLat hLng⟩

/-- Claim C4, evaluated on the code: `GeoFilter.Observe` has no guard on the
latitude of the observation; for every observation whose latitude exceeds 90 in
absolute value the first coordinate-factor lookup indexes the table out of
range and `Observe` panics before the estimator is called. -/
theorem Observe_panics_out_of_range {ε : Type}
    (filterObserve : Filter → ℝ → Observed → Filter × Option ε)
    (g : GeoFilter) (td : ℝ) (ob : GeoObserved) (h : 90 < |ob.Lat|) :
    geo.FastMetersPerDegreeLat ob.Lat = none ∧ g.Observe filterObserve td ob = none := by
  have hl := geo.interpolate_out_of_range (geo.metersPerDegreeLat : List ℝ)
    geo.metersPerDegreeLat_length ob.Lat h
  rw [← geo.FastMetersPerDegreeLat_eq] at hl
  refine ⟨hl, ?_⟩
  unfold GeoFilter.Observe
  rw [hl]
  rfl

theorem Observe_panics_out_of_range_witness :
    (90 : ℝ) < |(120 : ℝ)| ∧
    (geo.FastMetersPerDegreeLat (120 : ℝ) = none ∧
      GeoFilter.Observe (fun f _ _ => (f, (none : Option Unit)))
        { filter := { state := none, cov := fun _ _ => 0 } } 1
        { Lat := 120, Lng := 0, Altitude := 0, Speed := 0, SpeedAccuracy := 0, Direction := 0,
          DirectionAccuracy := 0, HorizontalAccuracy := 0, VerticalAccuracy := 0 } = none) :=
  ⟨by norm_num,
   Observe_panics_out_of_range (fun f _ _ => (f, (none : Option Unit)))
     { filter := { state := none, cov := fun _ _ => 0 } } 1
     { Lat := 120, Lng := 0, Altitude := 0, Speed := 0, SpeedAccuracy := 0, Direction := 0,
       DirectionAccuracy := 0, HorizontalAccuracy := 0, VerticalAccuracy := 0 }
     (by norm_num)⟩

/-- Claim C5: `GeoFilter.Estimate` returns absent (`nil`) if and only if the
estimator has no state yet or the latitude component of the state is below -90
or above 90; a filter without a state yields absent, and every state with a
latitude in `[-90, 90]` yields an estimate. -/
theorem Estimate_absent_iff (g : GeoFilter) :
    (g.Estimate = some none ↔
      (g.filter.state = none ∨
        ∃ state, g.filter.state = some state ∧ (state _LAT < -90 ∨ state _LAT > 90))) ∧
    (g.filter.state = none → g.Estimate = some none) ∧
    (∀ state, g.filter.state = some state → -90 ≤ state _LAT → state _LAT ≤ 90 →
      ∃ e, g.Estimate = some (some e)) := by
  refine ⟨⟨?_, ?_⟩, Estimate_of_no_state g, Estimate_in_range g⟩
  · intro habs
    cases hs : g.filter.state with
    | none => exact Or.inl rfl
    | some state =>
      right
      refine ⟨state, rfl, ?_⟩
      by_contra hg
      push_neg at hg
      obtain ⟨e, he⟩ := Estimate_in_range g state hs hg.1 hg.2
      rw [he] at habs
      exact Option.noConfusion (Option.some.inj habs)
  · rintro (hs | ⟨state, hs, hg⟩)
    · exact Estimate_of_no_state g hs
    · exact Estimate_of_guard g state hs hg

/-- On real-valued states `GeoFilter.Estimate` does not panic, and behind the
guard both derived indices are within `0..90` and both lookups return a
value. -/
theorem Estimate_real_never_panics (g : GeoFilter) :
    g.Estimate ≠ none ∧
    ∀ state, g.filter.state = some state → ¬ (state _LAT < -90 ∨ state _LAT > 90) →
      (0 ≤ geo.toInt (geo.mathAbs (geo.mathFloor (state _LAT))) ∧
        geo.toInt (geo.mathAbs (geo.mathFloor (state _LAT))) ≤ 90 ∧
        0 ≤ geo.toInt (geo.mathAbs (geo.mathCeil (state _LAT))) ∧
        geo.toInt (geo.mathAbs (geo.mathCeil (state _LAT))) ≤ 90) ∧
      (∃ mLat, geo.FastMetersPerDegreeLat (state _LAT) = some mLat) ∧
      (∃ mLng, geo.FastMetersPerDegreeLng (state _LAT) = some mLng) := by
  constructor
  · intro hn
    cases hs : g.filter.state with
    | none =>
      rw [Estimate_of_no_state g hs] at hn
      exact Option.noConfusion hn
    | some state =>
      by_cases hg : state _LAT < -90 ∨ state _LAT > 90
      · rw [Estimate_of_guard g state hs hg] at hn
        exact Option.noConfusion hn
      · push_neg at hg
        obtain ⟨e, he⟩ := Estimate_in_range g state hs hg.1 hg.2
        rw [he] at hn
        exact Option.noConfusion hn
  · intro state _ hg
    push_neg at hg
    obtain ⟨mLat, mLng, hLat, hLng⟩ := factors_in_range (state _LAT) hg.1 hg.2
    refine ⟨⟨?_, ?_, ?_, ?_⟩, ⟨mLat, hLat⟩, ⟨mLng, hLng⟩⟩
    · rw [geo.i0_eq]
      exact abs_nonneg _
    · rw [geo.i0_eq]
      exact geo.abs_floor_le _ hg.1 hg.2
    · rw [geo.i1_eq]
      exact abs_nonneg _
    · rw [geo.i1_eq]
      exact geo.abs_ceil_le _ hg.1 hg.2

/-- Claim C7, evaluated on the code at the state latitude 90: the guard of
`GeoFilter.Estimate` is `lat < -90 || lat > 90`, so the pole passes it, both
lookups read the table at index 90 and an estimate is returned, not the absent
outcome. -/
theorem Estimate_at_pole_present :
    GeoFilter.Estimate
      { filter := { state := some (fun i => if i = 0 then 90 else 0), cov := fun _ _ => 0 } } =
    some (some { Lat := 90, Lng := 0, Altitude := 0, Speed := 0, Direction := 0,
                 HorizontalAccuracy := 0 }) := by
  have hf : ⌊(90 : ℝ)⌋ = 90 := by
    rw [Int.floor_eq_iff]
    norm_num
  have hc : ⌈(90 : ℝ)⌉ = 90 := by
    rw [Int.ceil_eq_iff]
    norm_num
  have ha : |(90 : ℤ)| = 90 := by decide
  have iLat : geo.index (geo.metersPerDegreeLat : List ℝ) 90 = some 111693.917300 := rfl
  have iLng : geo.index (geo.metersPerDegreeLng : List ℝ) 90 = some 0.000000 := rfl
  have hLat : geo.FastMetersPerDegreeLat (90 : ℝ) = some 111693.917300 := by
    rw [geo.FastMetersPerDegreeLat_eq, geo.interpolate_unfold, hf, hc, ha, iLat]
    norm_num
  have hLng : geo.FastMetersPerDegreeLng (90 : ℝ) = some 0 := by
    rw [geo.FastMetersPerDegreeLng_eq, geo.interpolate_unfold, hf, hc, ha, iLng]
    norm_num
  rw [Estimate_of_factors _ (fun i => if i = 0 then 90 else 0) 111693.917300 0 rfl
    (by norm_num [_LAT]) (by norm_num [_LAT]) (by simpa [_LAT] using hLat)
    (by simpa [_LAT] using hLng)]
  simp [_LAT, _LNG, _ALTITUDE, _VLAT, _VLNG]

/-- Claim C7, amended: a state latitude of 91 or -91 yields the absent outcome;
a state latitude of 90 or -90 passes the guard and yields an estimate carrying
that latitude, with no panic. -/
theorem Estimate_boundary (g : GeoFilter) (state : ℕ → ℝ) (hs : g.filter.state = some state) :
    ((state _LAT = 91 ∨ state _LAT = -91) → g.Estimate = some none) ∧
    ((state _LAT = 90 ∨ state _LAT = -90) →
      ∃ e, g.Estimate = some (some e) ∧ e.Lat = state _LAT) := by
  constructor
  · intro h
    apply Estimate_of_guard g state hs
    rcases h with h | h <;> rw [h] <;> norm_num
  · intro h
    have hr : -90 ≤ state _LAT ∧ state _LAT ≤ 90 := by
      rcases h with h | h <;> rw [h] <;> norm_num
    obtain ⟨mLat, mLng, hLat, hLng⟩ := factors_in_range (state _LAT) hr.1 hr.2
    exact ⟨_, Estimate_of_factors g state mLat mLng hs hr.1 hr.2 hLat hLng, rfl⟩

theorem Estimate_boundary_witness :
    (({ filter := { state := some (fun _ => -90), cov := fun _ _ => 1 } } : GeoFilter).filter.state
      = some (fun _ => -90)) ∧
    ((((fun _ => -90) : ℕ → ℝ) _LAT = 91 ∨ ((fun _ => -90) : ℕ → ℝ) _LAT = -91) →
        GeoFilter.Estimate { filter := { state := some (fun _ => -90), cov := fun _ _ => 1 } }
          = some none) ∧
    ((((fun _ => -90) : ℕ → ℝ) _LAT = 90 ∨ ((fun _ => -90) : ℕ → ℝ) _LAT = -90) →
        ∃ e, GeoFilter.Estimate
            { filter := { state := some (fun _ => -90), cov := fun _ _ => 1 } } = some (some e) ∧
          e.Lat = ((fun _ => -90) : ℕ → ℝ) _LAT) :=
  ⟨rfl, Estimate_boundary { filter := { state := some (fun _ => -90), cov := fun _ _ => 1 } }
    (fun _ => -90) rfl⟩

/-- Claim C8: for every speed, speed accuracy, heading, heading accuracy and
every positive conversion factor `m`, `speedLatAccuracy` and `speedLngAccuracy`
are at least `0.1/m`; with speed 0 and speed accuracy 0 both are exactly
`0.1/m`. -/
theorem speedAccuracy_floor (speed speedAccuracy directionRad directionRadAccuracy m : ℝ)
    (hm : 0 < m) :
    0.1 / m ≤ speedLatAccuracy speed speedAccuracy directionRad directionRadAccuracy m ∧
    0.1 / m ≤ speedLngAccuracy speed speedAccuracy directionRad directionRadAccuracy m ∧
    speedLatAccuracy 0 0 directionRad directionRadAccuracy m = 0.1 / m ∧
    speedLngAccuracy 0 0 directionRad directionRadAccuracy m = 0.1 / m := by
  have hpos : (0 : ℝ) ≤ 0.1 / m := div_nonneg (by norm_num) (le_of_lt hm)
  refine ⟨le_max_right _ _, le_max_right _ _, ?_, ?_⟩
  · unfold speedLatAccuracy minSpeedAccuracy
    simp only [mul_zero, neg_zero, zero_mul, zero_div, add_zero, Real.sqrt_zero]
    exact max_eq_right hpos
  · unfold speedLngAccuracy minSpeedAccuracy
    simp only [mul_zero, zero_mul, zero_div, add_zero, Real.sqrt_zero]
    exact max_eq_right hpos

theorem speedAccuracy_floor_witness :
    (0 : ℝ) < 111132 ∧
    (0.1 / 111132 ≤ speedLatAccuracy 0 1 0 0 111132 ∧
    0.1 / 111132 ≤ speedLngAccuracy 0 1 0 0 111132 ∧
    speedLatAccuracy 0 0 0 0 111132 = 0.1 / 111132 ∧
    speedLngAccuracy 0 0 0 0 111132 = 0.1 / 111132) :=
  ⟨by norm_num, speedAccuracy_floor 0 1 0 0 111132 (by norm_num)⟩

/-- Claim C9: for all real speed `s`, speed accuracy `a`, heading `h`, heading
accuracy `r` and conversion factor `m > 0`, `speedLatAccuracy` is
`max (sqrt ((cos h / m * a)^2 + (s * sin h / m * r)^2)) (0.1 / m)` and
`speedLngAccuracy` is
`max (sqrt ((sin h / m * a)^2 + (s * cos h / m * r)^2)) (0.1 / m)`. -/
theorem speedAccuracy_formula (s a h r m : ℝ) (_hm : 0 < m) :
    speedLatAccuracy s a h r m =
      max (Real.sqrt ((Real.cos h / m * a) ^ 2 + (s * Real.sin h / m * r) ^ 2)) (0.1 / m) ∧
    speedLngAccuracy s a h r m =
      max (Real.sqrt ((Real.sin h / m * a) ^ 2 + (s * Real.cos h / m * r) ^ 2)) (0.1 / m) := by
  constructor
  · unfold speedLatAccuracy minSpeedAccuracy
    simp only []
    congr 2
    ring
  · unfold speedLngAccuracy minSpeedAccuracy
    simp only []
    congr 2
    ring

theorem speedAccuracy_formula_witness :
    (0 : ℝ) < 2 ∧
    (speedLatAccuracy 5 1 0 1 2 =
      max (Real.sqrt ((Real.cos 0 / 2 * 1) ^ 2 + (5 * Real.sin 0 / 2 * 1) ^ 2)) (0.1 / 2) ∧
    speedLngAccuracy 5 1 0 1 2 =
      max (Real.sqrt ((Real.sin 0 / 2 * 1) ^ 2 + (5 * Real.cos 0 / 2 * 1) ^ 2)) (0.1 / 2)) :=
  ⟨by norm_num, speedAccuracy_formula 5 1 0 1 2 (by norm_num)⟩

/-- Claim C10: for every elapsed time `td` and observation `ob` with latitude
in `[-90, 90]`, both coordinate factors `mLat`, `mLng` at `ob.Lat` exist and
`GeoFilter.Observe` returns exactly the result of the estimator's update applied
to the unchanged `td` and the measurement with `X = ob.Lat`, `Y = ob.Lng`,
`Z = ob.Altitude`, `VX = ob.Speed * cos (ob.Direction * pi / 180) / mLat`,
`VY = ob.Speed * sin (ob.Direction * pi / 180) / mLng`, `VZ = 0`,
`XA = ob.HorizontalAccuracy / mLat`, `YA = ob.HorizontalAccuracy / mLng`,
`ZA = ob.VerticalAccuracy`, `VXA`/`VYA` the `speedLatAccuracy`/`speedLngAccuracy`
values and `VZA = 0.1`. -/
theorem Observe_delegates {ε : Type} (filterObserve : Filter → ℝ → Observed → Filter × Option ε)
    (g : GeoFilter) (td : ℝ) (ob : GeoObserved) (h1 : -90 ≤ ob.Lat) (h2 : ob.Lat ≤ 90) :
    ∃ mLat mLng, geo.FastMetersPerDegreeLat ob.Lat = some mLat ∧
      geo.FastMetersPerDegreeLng ob.Lat = some mLng ∧
      ∀ r, r = filterObserve g.filter td
          { X := ob.Lat, Y := ob.Lng, Z := ob.Altitude,
            VX := ob.Speed * Real.cos (ob.Direction * Real.pi / 180) / mLat,
            VY := ob.Speed * Real.sin (ob.Direction * Real.pi / 180) / mLng,
            VZ := 0,
            XA := ob.HorizontalAccuracy / mLat,
            YA := ob.HorizontalAccuracy / mLng,
            ZA := ob.VerticalAccuracy,
            VXA := speedLatAccuracy ob.Speed ob.SpeedAccuracy (ob.Direction * Real.pi / 180)
              (ob.DirectionAccuracy * Real.pi / 180) mLat,
            VYA := speedLngAccuracy ob.Speed ob.SpeedAccuracy (ob.Direction * Real.pi / 180)
              (ob.DirectionAccuracy * Real.pi / 180) mLng,
            VZA := 0.1 } →
        g.Observe filterObserve td ob = some ({ filter := r.1 }, r.2) := by
  obtain ⟨mLat, mLng, hLat, hLng⟩ := factors_in_range ob.Lat h1 h2
  refine ⟨mLat, mLng, hLat, hLng, ?_⟩
  intro r hr
  rw [hr]
  exact Observe_of_factors filterObserve g td ob mLat mLng hLat hLng

theorem Observe_delegates_witness :
    (-90 : ℝ) ≤ 45 ∧ (45 : ℝ) ≤ 90 ∧
    ∃ mLat mLng, geo.FastMetersPerDegreeLat (45 : ℝ) = some mLat ∧
      geo.FastMetersPerDegreeLng (45 : ℝ) = some mLng ∧
      ∀ r, r = (fun (f : Filter) (_ : ℝ) (_ : Observed) => (f, (none : Option Unit)))
          { state := none, cov := fun _ _ => 0 } 0
          { X := 45, Y := -93, Z := 300,
            VX := 5 * Real.cos (90 * Real.pi / 180) / mLat,
            VY := 5 * Real.sin (90 * Real.pi / 180) / mLng,
            VZ := 0,
            XA := 5 / mLat,
            YA := 5 / mLng,
            ZA := 10,
            VXA := speedLatAccuracy 5 1 (90 * Real.pi / 180) (10 * Real.pi / 180) mLat,
            VYA := speedLngAccuracy 5 1 (90 * Real.pi / 180) (10 * Real.pi / 180) mLng,
            VZA := 0.1 } →
        GeoFilter.Observe (fun (f : Filter) (_ : ℝ) (_ : Observed) => (f, (none : Option Unit)))
          { filter := { state := none, cov := fun _ _ => 0 } } 0
          { Lat := 45, Lng := -93, Altitude := 300, Speed := 5, SpeedAccuracy := 1,
            Direction := 90, DirectionAccuracy := 10, HorizontalAccuracy := 5,
            VerticalAccuracy := 10 } = some ({ filter := r.1 }, r.2) :=
  ⟨by norm_num, by norm_num,
   Observe_delegates (fun (f : Filter) (_ : ℝ) (_ : Observed) => (f, (none : Option Unit)))
     { filter := { state := none, cov := fun _ _ => 0 } } 0
     { Lat := 45, Lng := -93, Altitude := 300, Speed := 5, SpeedAccuracy := 1,
       Direction := 90, DirectionAccuracy := 10, HorizontalAccuracy := 5,
       VerticalAccuracy := 10 } (by norm_num) (by norm_num)⟩

end kalman

/-! ## Package `geo`: monotonicity of the interpolation on `[0, 90]` -/

namespace geo

section Entries

variable {α : Type}

/-- Entries of a pairwise related table, read with `?`-indexing. -/
theorem pairwise_entries {R : α → α → Prop} (t : List α) (hp : List.Pairwise R t)
    (i j : ℕ) (x y : α) (hx : t[i]? = some x) (hy : t[j]? = some y) (hij : i < j) : R x y := by
  obtain ⟨hi, ex⟩ := List.getElem?_eq_some.mp hx
  obtain ⟨hj, ey⟩ := List.getElem?_eq_some.mp hy
  rw [← ex, ← ey]
  exact List.pairwise_iff_getElem.mp hp i j hi hj hij

theorem index_map (f : α → α) (t : List α) (i : ℤ) :
    index (t.map f) i = (index t i).map f := by
  unfold index
  by_cases h : 0 ≤ i
  · rw [if_pos h, if_pos h, List.getElem?_map]
  · rw [if_neg h, if_neg h]
    rfl

end Entries

section Order

variable {α : Type} [LinearOrderedField α]

/-- The latitude table is strictly increasing in the index. -/
theorem metersPerDegreeLat_pairwise :
    List.Pairwise (· < ·) (metersPerDegreeLat : List α) :=
  List.chain'_iff_pairwise.mp metersPerDegreeLat_chain

/-- The longitude table is strictly decreasing in the index. -/
theorem metersPerDegreeLng_pairwise :
    List.Pairwise (· > ·) (metersPerDegreeLng : List α) :=
  List.chain'_iff_pairwise.mp metersPerDegreeLng_chain

end Order

section Monotone

variable {α : Type} [LinearOrderedField α] [FloorRing α]

/-- Interpolating in the negated table negates the result. -/
theorem interpolate_map_neg (t : List α) (lat : α) :
    interpolate (t.map fun m => -m) lat = (interpolate t lat).map fun m => -m := by
  rw [interpolate_unfold, interpolate_unfold, index_map, index_map]
  cases index t |⌊lat⌋| with
  | none => rfl
  | some m0 =>
    cases index t |⌈lat⌉| with
    | none => rfl
    | some m1 =>
      simp only [Option.map_some', Option.some_bind, Option.some.injEq]
      ring

/-- On `[0, 90)` the function is the linear interpolation between the entries
at `n` and `n + 1`, where `n` is the integer part of the latitude. -/
theorem interpolate_segment (t : List α) (ht : t.length = 91) (L : α)
    (h0 : 0 ≤ L) (h90 : L < 90) :
    ∃ (n : ℕ) (m0 m1 : α), n < 90 ∧ (n : α) ≤ L ∧ L < (n : α) + 1 ∧
      t[n]? = some m0 ∧ t[n + 1]? = some m1 ∧
      interpolate t L = some (m0 + (m1 - m0) * (L - (n : α))) := by
  have hf0 : 0 ≤ ⌊L⌋ := Int.floor_nonneg.mpr h0
  have hlt90 : ⌊L⌋ < 90 := Int.floor_lt.mpr (by push_cast; exact h90)
  have hcast : ((⌊L⌋.toNat : ℕ) : α) = (⌊L⌋ : α) := by
    have : ((⌊L⌋.toNat : ℕ) : ℤ) = ⌊L⌋ := Int.toNat_of_nonneg hf0
    exact_mod_cast congrArg (fun z : ℤ => (z : α)) this
  have hn : ⌊L⌋.toNat < 90 := by omega
  obtain ⟨m0, m1', -, -, g0, g1, hv⟩ :=
    interpolate_in_range t ht L (by linarith) (le_of_lt h90)
  rw [abs_of_nonneg hf0] at g0 hv
  rw [abs_of_nonneg (Int.ceil_nonneg h0)] at g1
  have hnext : ⌊L⌋.toNat + 1 < t.length := by omega
  refine ⟨⌊L⌋.toNat, m0, t[⌊L⌋.toNat + 1], hn, ?_, ?_, g0,
    List.getElem?_eq_getElem hnext, ?_⟩
  · rw [hcast]
    exact Int.floor_le L
  · rw [hcast]
    exact Int.lt_floor_add_one L
  · rw [hv, hcast]
    by_cases hint : (⌊L⌋ : α) = L
    · rw [hint, sub_self, mul_zero, mul_zero]
    · have hlt : (⌊L⌋ : α) < L := lt_of_le_of_ne (Int.floor_le L) hint
      have hceil : ⌈L⌉ = ⌊L⌋ + 1 := by
        rw [Int.ceil_eq_iff]
        push_cast
        exact ⟨by linarith, le_of_lt (Int.lt_floor_add_one L)⟩
      have hnat : ⌈L⌉.toNat = ⌊L⌋.toNat + 1 := by omega
      rw [hnat, List.getElem?_eq_getElem hnext] at g1
      rw [Option.some.inj g1]

/-- At an integer latitude `n` of `0..90` the function returns the table entry
at `n`. -/
theorem interpolate_natCast (t : List α) (ht : t.length = 91) (n : ℕ) (hn : n ≤ 90) :
    ∃ m, t[n]? = some m ∧ interpolate t (n : α) = some m := by
  have hle : ((n : ℕ) : α) ≤ 90 := by exact_mod_cast hn
  have hge : (-90 : α) ≤ (n : α) := by
    have : (0 : α) ≤ (n : α) := Nat.cast_nonneg n
    linarith
  obtain ⟨m0, m1, -, -, g0, -, hv⟩ := interpolate_in_range t ht (n : α) hge hle
  have hfl : ⌊(n : α)⌋ = (n : ℤ) := Int.floor_natCast n
  rw [hfl] at g0 hv
  rw [abs_of_nonneg (Int.natCast_nonneg n)] at g0 hv
  rw [Int.toNat_natCast] at g0
  refine ⟨m0, g0, ?_⟩
  rw [hv]
  simp

/-- On `[0, 90]` the interpolation in a strictly increasing table is strictly
increasing. -/
theorem interpolate_strictMono (t : List α) (ht : t.length = 91)
    (hp : List.Pairwise (· < ·) t) (a b : α) (h0 : 0 ≤ a) (hab : a < b) (hb : b ≤ 90) :
    ∃ va vb, interpolate t a = some va ∧ interpolate t b = some vb ∧ va < vb := by
  have ha90 : a < 90 := lt_of_lt_of_le hab hb
  obtain ⟨na, p0, p1, hna, hla, hua, ga0, ga1, hva⟩ := interpolate_segment t ht a h0 ha90
  have hp01 : p0 < p1 := pairwise_entries t hp na (na + 1) p0 p1 ga0 ga1 (Nat.lt_succ_self na)
  have hup : p0 + (p1 - p0) * (a - (na : α)) < p1 := by
    have := mul_pos (sub_pos.mpr hp01) (show 0 < 1 - (a - (na : α)) by linarith)
    linarith
  -- every entry at an index of at least `na + 1` is at least `p1`
  have hle : ∀ (k : ℕ) (q : α), na + 1 ≤ k → t[k]? = some q → p1 ≤ q := by
    intro k q hk hq
    rcases Nat.eq_or_lt_of_le hk with h | h
    · rw [← h, ga1] at hq
      exact le_of_eq (Option.some.inj hq)
    · exact le_of_lt (pairwise_entries t hp (na + 1) k p1 q ga1 hq h)
  rcases lt_or_eq_of_le hb with hb90 | hb90
  · obtain ⟨nb, q0, q1, hnb, hlb, hub, gb0, gb1, hvb⟩ :=
      interpolate_segment t ht b (le_trans h0 (le_of_lt hab)) hb90
    have hq01 : q0 < q1 :=
      pairwise_entries t hp nb (nb + 1) q0 q1 gb0 gb1 (Nat.lt_succ_self nb)
    refine ⟨_, _, hva, hvb, ?_⟩
    have hnn : na ≤ nb := by
      have h1 : (na : α) < (nb : α) + 1 := by linarith
      have h2 : na < nb + 1 := by exact_mod_cast h1
      omega
    rcases Nat.eq_or_lt_of_le hnn with h | h
    · subst h
      rw [ga0] at gb0
      rw [ga1] at gb1
      rw [← Option.some.inj gb0, ← Option.some.inj gb1]
      have := mul_pos (sub_pos.mpr hp01) (sub_pos.mpr hab)
      linarith
    · have h1 : p1 ≤ q0 := hle nb q0 (by omega) gb0
      have h2 := mul_nonneg (le_of_lt (sub_pos.mpr hq01)) (sub_nonneg.mpr hlb)
      linarith
  · obtain ⟨m, gm, hvm⟩ := interpolate_natCast t ht 90 (le_refl 90)
    have hcast : ((90 : ℕ) : α) = 90 := by norm_num
    rw [hcast, ← hb90] at hvm
    refine ⟨_, m, hva, hvm, ?_⟩
    have h1 : p1 ≤ m := hle 90 m (by omega) gm
    linarith

/-- On `[0, 90]` the interpolation in a strictly decreasing table is strictly
decreasing. -/
theorem interpolate_strictAnti (t : List α) (ht : t.length = 91)
    (hp : List.Pairwise (· > ·) t) (a b : α) (h0 : 0 ≤ a) (hab : a < b) (hb : b ≤ 90) :
    ∃ va vb, interpolate t a = some va ∧ interpolate t b = some vb ∧ vb < va := by
  have hlen : (t.map fun m => -m).length = 91 := by rw [List.length_map, ht]
  have hpn : List.Pairwise (· < ·) (t.map fun m => -m) := by
    rw [List.pairwise_map]
    exact hp.imp fun h => neg_lt_neg h
  obtain ⟨na, nb, hna, hnb, hlt⟩ := interpolate_strictMono _ hlen hpn a b h0 hab hb
  rw [interpolate_map_neg, Option.map_eq_some'] at hna hnb
  obtain ⟨va, hva, ea⟩ := hna
  obtain ⟨vb, hvb, eb⟩ := hnb
  refine ⟨va, vb, hva, hvb, ?_⟩
  rw [← ea, ← eb] at hlt
  exact neg_lt_neg_iff.mp hlt

end Monotone

end geo

/-! ## Claims on the tables and on the factor functions within `[-90, 90]` -/

namespace geo

section TableClaims

variable {α : Type} [LinearOrderedField α]

/-- Claim C14: the two coordinate-factor tables each have exactly 91 entries
(indices `0..90`); `metersPerDegreeLat` is strictly increasing in the index and
`metersPerDegreeLng` is strictly decreasing in the index, with
`metersPerDegreeLng[90] = 0`. -/
theorem tables_shape :
    (metersPerDegreeLat : List α).length = 91 ∧
    (metersPerDegreeLng : List α).length = 91 ∧
    (∀ (i j : ℕ) (x y : α), i < j → (metersPerDegreeLat : List α)[i]? = some x →
      (metersPerDegreeLat : List α)[j]? = some y → x < y) ∧
    (∀ (i j : ℕ) (x y : α), i < j → (metersPerDegreeLng : List α)[i]? = some x →
      (metersPerDegreeLng : List α)[j]? = some y → y < x) ∧
    (metersPerDegreeLng : List α)[90]? = some (0 : α) := by
  refine ⟨rfl, rfl, ?_, ?_, ?_⟩
  · intro i j x y hij hx hy
    exact pairwise_entries _ metersPerDegreeLat_pairwise i j x y hx hy hij
  · intro i j x y hij hx hy
    exact pairwise_entries _ metersPerDegreeLng_pairwise i j x y hx hy hij
  · have h : (metersPerDegreeLng : List α)[90]? = some (0.000000 : α) := rfl
    rw [h]
    norm_num

end TableClaims

section RangeClaims

variable {α : Type} [LinearOrderedField α] [FloorRing α]

/-- Claim C15: for every latitude `lat` with `-90 ≤ lat ≤ 90`, negative and
fractional included, both indices computed by `FastMetersPerDegreeLat` and
`FastMetersPerDegreeLng`, `i0 = |floor lat|` and `i1 = |ceil lat|`, lie in
`0..90` and both functions return a value (no out-of-range access). -/
theorem Fast_indices_in_range (lat : α) (h1 : -90 ≤ lat) (h2 : lat ≤ 90) :
    (0 ≤ toInt (mathAbs (mathFloor lat)) ∧ toInt (mathAbs (mathFloor lat)) ≤ 90 ∧
      0 ≤ toInt (mathAbs (mathCeil lat)) ∧ toInt (mathAbs (mathCeil lat)) ≤ 90) ∧
    (∃ v, FastMetersPerDegreeLat lat = some v) ∧
    (∃ w, FastMetersPerDegreeLng lat = some w) := by
  obtain ⟨a0, a1, -, -, -, -, ha⟩ :=
    interpolate_in_range (metersPerDegreeLat : List α) metersPerDegreeLat_length lat h1 h2
  obtain ⟨b0, b1, -, -, -, -, hb⟩ :=
    interpolate_in_range (metersPerDegreeLng : List α) metersPerDegreeLng_length lat h1 h2
  refine ⟨⟨?_, ?_, ?_, ?_⟩, ⟨_, ha⟩, ⟨_, hb⟩⟩
  · rw [i0_eq]
    exact abs_nonneg _
  · rw [i0_eq]
    exact abs_floor_le lat h1 h2
  · rw [i1_eq]
    exact abs_nonneg _
  · rw [i1_eq]
    exact abs_ceil_le lat h1 h2

/-- On `[0, 90]` the latitude factor is increasing and the longitude factor is
decreasing, strictly so. -/
theorem Fast_mono_aux (a b : α) (h0 : 0 ≤ a) (hab : a ≤ b) (hb : b ≤ 90) :
    ∃ va vb wa wb, FastMetersPerDegreeLat a = some va ∧ FastMetersPerDegreeLat b = some vb ∧
      FastMetersPerDegreeLng a = some wa ∧ FastMetersPerDegreeLng b = some wb ∧
      va ≤ vb ∧ wb ≤ wa ∧ (a < b → va < vb ∧ wb < wa) := by
  rcases eq_or_lt_of_le hab with h | h
  · subst h
    obtain ⟨a0, a1, -, -, -, -, ha⟩ :=
      interpolate_in_range (metersPerDegreeLat : List α) metersPerDegreeLat_length a
        (by linarith) hb
    obtain ⟨b0, b1, -, -, -, -, hb'⟩ :=
      interpolate_in_range (metersPerDegreeLng : List α) metersPerDegreeLng_length a
        (by linarith) hb
    exact ⟨_, _, _, _, ha, ha, hb', hb', le_refl _, le_refl _,
      fun hlt => absurd hlt (lt_irrefl a)⟩
  · obtain ⟨va, vb, hva, hvb, hv⟩ :=
      interpolate_strictMono (metersPerDegreeLat : List α) metersPerDegreeLat_length
        metersPerDegreeLat_pairwise a b h0 h hb
    obtain ⟨wa, wb, hwa, hwb, hw⟩ :=
      interpolate_strictAnti (metersPerDegreeLng : List α) metersPerDegreeLng_length
        metersPerDegreeLng_pairwise a b h0 h hb
    exact ⟨va, vb, wa, wb, hva, hvb, hwa, hwb, le_of_lt hv, le_of_lt hw, fun _ => ⟨hv, hw⟩⟩

/-- The factors at the equator and the longitude factor at the pole are the
first and the last table entries. -/
theorem Fast_at_ends :
    FastMetersPerDegreeLat (0 : α) = some 110574.272700 ∧
    FastMetersPerDegreeLng (0 : α) = some 111319.458000 ∧
    FastMetersPerDegreeLat (90 : α) = some 111693.917300 ∧
    FastMetersPerDegreeLng (90 : α) = some 0 := by
  have c0 : ((0 : ℕ) : α) = 0 := Nat.cast_zero
  have c90 : ((90 : ℕ) : α) = 90 := by norm_num
  obtain ⟨m1, g1, h1⟩ := interpolate_natCast (metersPerDegreeLat : List α)
    metersPerDegreeLat_length 0 (by omega)
  obtain ⟨m2, g2, h2⟩ := interpolate_natCast (metersPerDegreeLng : List α)
    metersPerDegreeLng_length 0 (by omega)
  obtain ⟨m3, g3, h3⟩ := interpolate_natCast (metersPerDegreeLat : List α)
    metersPerDegreeLat_length 90 (by omega)
  obtain ⟨m4, g4, h4⟩ := interpolate_natCast (metersPerDegreeLng : List α)
    metersPerDegreeLng_length 90 (by omega)
  have e1 : (metersPerDegreeLat : List α)[0]? = some (110574.272700 : α) := rfl
  have e2 : (metersPerDegreeLng : List α)[0]? = some (111319.458000 : α) := rfl
  have e3 : (metersPerDegreeLat : List α)[90]? = some (111693.917300 : α) := rfl
  have e4 : (metersPerDegreeLng : List α)[90]? = some (0.000000 : α) := rfl
  rw [e1] at g1
  rw [e2] at g2
  rw [e3] at g3
  rw [e4] at g4
  rw [c0] at h1 h2
  rw [c90] at h3 h4
  refine ⟨?_, ?_, ?_, ?_⟩
  · rw [FastMetersPerDegreeLat_eq, h1, ← g1]
  · rw [FastMetersPerDegreeLng_eq, h2, ← g2]
  · rw [FastMetersPerDegreeLat_eq, h3, ← g3]
  · rw [FastMetersPerDegreeLng_eq, h4, ← g4]
    norm_num

/-- On `[0, 90)` both factors are positive, the latitude factor being at least
the first entry of its table. -/
theorem Fast_pos_north (lat : α) (h0 : 0 ≤ lat) (h90 : lat < 90) :
    ∃ mLat mLng, FastMetersPerDegreeLat lat = some mLat ∧
      FastMetersPerDegreeLng lat = some mLng ∧ 110574.272700 ≤ mLat ∧ 0 < mLng := by
  obtain ⟨e1, -, -, e4⟩ := @Fast_at_ends α _ _
  obtain ⟨va, vb, wa, wb, hva, hvb, hwa, hwb, hv, -, -⟩ :=
    Fast_mono_aux 0 lat (le_refl 0) h0 (le_of_lt h90)
  obtain ⟨va', vb', wa', wb', hva', hvb', hwa', hwb', -, -, hs⟩ :=
    Fast_mono_aux lat 90 h0 (le_of_lt h90) (le_refl 90)
  rw [e1] at hva
  rw [e4] at hwb'
  rw [hvb] at hva'
  rw [← Option.some.inj hva] at hv
  have hw := (hs h90).2
  rw [← Option.some.inj hwb'] at hw
  exact ⟨vb, wa', hvb, hwa', hv, hw⟩

/-- Claim C17: on the domain `0 ≤ a ≤ b ≤ 90`, fractional latitudes and
different table segments included, `FastMetersPerDegreeLat a ≤
FastMetersPerDegreeLat b` and `FastMetersPerDegreeLng a ≥
FastMetersPerDegreeLng b`, with strict inequality when `a < b`. -/
theorem Fast_monotone (a b : α) (h0 : 0 ≤ a) (hab : a ≤ b) (hb : b ≤ 90) :
    ∃ va vb wa wb, FastMetersPerDegreeLat a = some va ∧ FastMetersPerDegreeLat b = some vb ∧
      FastMetersPerDegreeLng a = some wa ∧ FastMetersPerDegreeLng b = some wb ∧
      va ≤ vb ∧ wb ≤ wa ∧ (a < b → va < vb ∧ wb < wa) :=
  Fast_mono_aux a b h0 hab hb

/-- Claim C18: for every latitude `lat` with `0 ≤ lat < 90` both
`FastMetersPerDegreeLat lat` and `FastMetersPerDegreeLng lat` are positive, so
the divisors of `Observe` and `NewGeoFilter` at such a latitude are non-zero;
at `lat = 90` `FastMetersPerDegreeLng` is exactly 0. -/
theorem Fast_pos_below_pole (lat : α) (h0 : 0 ≤ lat) (h90 : lat < 90) :
    (∃ mLat mLng, FastMetersPerDegreeLat lat = some mLat ∧
      FastMetersPerDegreeLng lat = some mLng ∧ 0 < mLat ∧ 0 < mLng ∧
      mLat ≠ 0 ∧ mLng ≠ 0) ∧
    FastMetersPerDegreeLng (90 : α) = some 0 := by
  obtain ⟨mLat, mLng, hLat, hLng, h1, h2⟩ := Fast_pos_north lat h0 h90
  have hpos : 0 < mLat := lt_of_lt_of_le (by norm_num) h1
  exact ⟨⟨mLat, mLng, hLat, hLng, hpos, h2, ne_of_gt hpos, ne_of_gt h2⟩, Fast_at_ends.2.2.2⟩

end RangeClaims

/-- Claim C16, evaluated on the code at the southern fractional latitude
`-45.3`: the indices are `46` and `45` and the weight is `-45.3 - 46 = -91.3`,
so the latitude factor is above the last entry of its table and the longitude
factor is negative. -/
theorem Fast_out_of_table_range_south :
    FastMetersPerDegreeLat (-45.3 : ℚ) = some 112935.2923534 ∧
    FastMetersPerDegreeLng (-45.3 : ℚ) = some (-48853.5344048) ∧
    (metersPerDegreeLat : List ℚ)[90]? = some (111693.917300 : ℚ) ∧
    (111693.917300 : ℚ) < 112935.2923534 ∧ (-48853.5344048 : ℚ) < 0 := by
  have hf : ⌊(-45.3 : ℚ)⌋ = -46 := by norm_num [Int.floor_eq_iff]
  have hc : ⌈(-45.3 : ℚ)⌉ = -45 := by norm_num [Int.ceil_eq_iff]
  have a0 : |(-46 : ℤ)| = 46 := by decide
  have a1 : |(-45 : ℤ)| = 45 := by decide
  have i0 : index (metersPerDegreeLat : List ℚ) 46 = some 111151.285058 := rfl
  have i1 : index (metersPerDegreeLat : List ℚ) 45 = some 111131.745000 := rfl
  have j0 : index (metersPerDegreeLng : List ℚ) 46 = some 77463.270075 := rfl
  have j1 : index (metersPerDegreeLng : List ℚ) 45 = some 78846.805721 := rfl
  refine ⟨?_, ?_, rfl, by norm_num, by norm_num⟩
  · rw [FastMetersPerDegreeLat_eq, interpolate_unfold, hf, hc, a0, a1, i0, i1]
    norm_num
  · rw [FastMetersPerDegreeLng_eq, interpolate_unfold, hf, hc, a0, a1, j0, j1]
    norm_num

theorem Fast_indices_in_range_witness :
    (-90 : ℚ) ≤ -89.5 ∧ (-89.5 : ℚ) ≤ 90 ∧
    ((0 ≤ toInt (mathAbs (mathFloor (-89.5 : ℚ))) ∧
        toInt (mathAbs (mathFloor (-89.5 : ℚ))) ≤ 90 ∧
        0 ≤ toInt (mathAbs (mathCeil (-89.5 : ℚ))) ∧
        toInt (mathAbs (mathCeil (-89.5 : ℚ))) ≤ 90) ∧
      (∃ v, FastMetersPerDegreeLat (-89.5 : ℚ) = some v) ∧
      (∃ w, FastMetersPerDegreeLng (-89.5 : ℚ) = some w)) :=
  ⟨by norm_num, by norm_num, Fast_indices_in_range (-89.5 : ℚ) (by norm_num) (by norm_num)⟩

theorem Fast_monotone_witness :
    (0 : ℚ) ≤ 10.5 ∧ (10.5 : ℚ) ≤ 11.25 ∧ (11.25 : ℚ) ≤ 90 ∧
    ∃ va vb wa wb, FastMetersPerDegreeLat (10.5 : ℚ) = some va ∧
      FastMetersPerDegreeLat (11.25 : ℚ) = some vb ∧
      FastMetersPerDegreeLng (10.5 : ℚ) = some wa ∧
      FastMetersPerDegreeLng (11.25 : ℚ) = some wb ∧
      va ≤ vb ∧ wb ≤ wa ∧ ((10.5 : ℚ) < 11.25 → va < vb ∧ wb < wa) :=
  ⟨by norm_num, by norm_num, by norm_num,
   Fast_monotone (10.5 : ℚ) 11.25 (by norm_num) (by norm_num) (by norm_num)⟩

theorem Fast_pos_below_pole_witness :
    (0 : ℚ) ≤ 89.9 ∧ (89.9 : ℚ) < 90 ∧
    ((∃ mLat mLng, FastMetersPerDegreeLat (89.9 : ℚ) = some mLat ∧
      FastMetersPerDegreeLng (89.9 : ℚ) = some mLng ∧ 0 < mLat ∧ 0 < mLng ∧
      mLat ≠ 0 ∧ mLng ≠ 0) ∧
    FastMetersPerDegreeLng (90 : ℚ) = some 0) :=
  ⟨by norm_num, by norm_num, Fast_pos_below_pole (89.9 : ℚ) (by norm_num) (by norm_num)⟩

end geo

/-! ## Package `kalman`: construction and estimate extraction -/

namespace kalman

/-- The process noise `NewGeoFilter` hands to the estimator's constructor, and
what it returns, given the two coordinate factors at the base latitude. -/
theorem NewGeoFilter_of_factors {ε : Type} (NewFilter : ProcessNoise → Except ε Filter)
    (d : GeoProcessNoise) (mLat mLng : ℝ)
    (hLat : geo.FastMetersPerDegreeLat d.BaseLat = some mLat)
    (hLng : geo.FastMetersPerDegreeLng d.BaseLat = some mLng) :
    NewGeoFilter NewFilter d =
      some (match NewFilter
          { ST := 1
            SX := d.DistancePerSecond / Real.sqrt 2 / mLat
            SY := d.DistancePerSecond / Real.sqrt 2 / mLng
            SZ := d.DistancePerSecond * Real.sin (5 * Real.pi / 180)
            SVX := d.SpeedPerSecond / Real.sqrt 2 / mLat
            SVY := d.SpeedPerSecond / Real.sqrt 2 / mLng
            SVZ := d.SpeedPerSecond * Real.sin (5 * Real.pi / 180) } with
        | .error err => .error err
        | .ok f => .ok { filter := f }) := by
  unfold NewGeoFilter
  rw [hLat, hLng]
  have e1 : (180.0 : ℝ) = 180 := by norm_num
  have e2 : (1.0 : ℝ) = 1 := by norm_num
  simp only [Option.bind_eq_bind, Option.some_bind, Option.pure_def, sqrtOf2, inclineFactor,
    incline, e1, e2]
  cases NewFilter _ <;> rfl

/-- The two horizontal position noises, converted back to meters, are the same
share `d / sqrt 2` of the planar distance, and their root-sum-square is `|d|`. -/
theorem planar_split (dist mLat mLng : ℝ) (h1 : mLat ≠ 0) (h2 : mLng ≠ 0) :
    dist / Real.sqrt 2 / mLat * mLat = dist / Real.sqrt 2 / mLng * mLng ∧
    Real.sqrt ((dist / Real.sqrt 2 / mLat * mLat) ^ 2 +
      (dist / Real.sqrt 2 / mLng * mLng) ^ 2) = |dist| := by
  have hsq : Real.sqrt 2 ^ 2 = 2 := Real.sq_sqrt (by norm_num)
  have ea : dist / Real.sqrt 2 / mLat * mLat = dist / Real.sqrt 2 := div_mul_cancel₀ _ h1
  have eb : dist / Real.sqrt 2 / mLng * mLng = dist / Real.sqrt 2 := div_mul_cancel₀ _ h2
  rw [ea, eb]
  refine ⟨rfl, ?_⟩
  have : (dist / Real.sqrt 2) ^ 2 + (dist / Real.sqrt 2) ^ 2 = dist ^ 2 := by
    rw [div_pow, hsq]
    ring
  rw [this, Real.sqrt_sq_eq_abs]

/-- Claim C11: for every `GeoProcessNoise` `d` with `BaseLat` in `[-90, 90]`,
`NewGeoFilter` passes to the estimator constructor `ST = 1`,
`SX = d.DistancePerSecond / sqrt 2 / mLat`, `SY = d.DistancePerSecond / sqrt 2 / mLng`,
`SZ = d.DistancePerSecond * sin (5 degrees)`, `SVX = d.SpeedPerSecond / sqrt 2 / mLat`,
`SVY = d.SpeedPerSecond / sqrt 2 / mLng`, `SVZ = d.SpeedPerSecond * sin (5 degrees)`,
with `mLat`, `mLng` the factors at `d.BaseLat`; it returns the constructor's
error unchanged, with no filter, when the constructor fails and the filter
around the constructed estimator otherwise; when `mLat` and `mLng` are non-zero
the north and east position noise converted back to meters are equal and their
root-sum-square is `|d.DistancePerSecond|`. -/
theorem NewGeoFilter_delegates {ε : Type} (NewFilter : ProcessNoise → Except ε Filter)
    (d : GeoProcessNoise) (h1 : -90 ≤ d.BaseLat) (h2 : d.BaseLat ≤ 90) :
    ∃ mLat mLng, geo.FastMetersPerDegreeLat d.BaseLat = some mLat ∧
      geo.FastMetersPerDegreeLng d.BaseLat = some mLng ∧
      ∀ pn : ProcessNoise, pn =
          { ST := 1
            SX := d.DistancePerSecond / Real.sqrt 2 / mLat
            SY := d.DistancePerSecond / Real.sqrt 2 / mLng
            SZ := d.DistancePerSecond * Real.sin (5 * Real.pi / 180)
            SVX := d.SpeedPerSecond / Real.sqrt 2 / mLat
            SVY := d.SpeedPerSecond / Real.sqrt 2 / mLng
            SVZ := d.SpeedPerSecond * Real.sin (5 * Real.pi / 180) } →
        (∀ err, NewFilter pn = .error err → NewGeoFilter NewFilter d = some (.error err)) ∧
        (∀ f, NewFilter pn = .ok f → NewGeoFilter NewFilter d = some (.ok { filter := f })) ∧
        (mLat ≠ 0 → mLng ≠ 0 →
          pn.SX * mLat = pn.SY * mLng ∧
          Real.sqrt ((pn.SX * mLat) ^ 2 + (pn.SY * mLng) ^ 2) = |d.DistancePerSecond|) := by
  obtain ⟨mLat, mLng, hLat, hLng⟩ := factors_in_range d.BaseLat h1 h2
  refine ⟨mLat, mLng, hLat, hLng, ?_⟩
  intro pn hpn
  have hN := NewGeoFilter_of_factors NewFilter d mLat mLng hLat hLng
  rw [← hpn] at hN
  refine ⟨?_, ?_, ?_⟩
  · intro err herr
    rw [hN, herr]
  · intro f hf
    rw [hN, hf]
  · intro hm1 hm2
    rw [hpn]
    exact planar_split d.DistancePerSecond mLat mLng hm1 hm2

theorem NewGeoFilter_delegates_witness :
    (-90 : ℝ) ≤ 45 ∧ (45 : ℝ) ≤ 90 ∧
    ∃ mLat mLng, geo.FastMetersPerDegreeLat (45 : ℝ) = some mLat ∧
      geo.FastMetersPerDegreeLng (45 : ℝ) = some mLng ∧
      ∀ pn : ProcessNoise, pn =
          { ST := 1
            SX := 1 / Real.sqrt 2 / mLat
            SY := 1 / Real.sqrt 2 / mLng
            SZ := 1 * Real.sin (5 * Real.pi / 180)
            SVX := 0.5 / Real.sqrt 2 / mLat
            SVY := 0.5 / Real.sqrt 2 / mLng
            SVZ := 0.5 * Real.sin (5 * Real.pi / 180) } →
        (∀ err, (fun _ => Except.error 7 : ProcessNoise → Except ℕ Filter) pn = .error err →
          NewGeoFilter (fun _ => Except.error 7 : ProcessNoise → Except ℕ Filter)
            { BaseLat := 45, DistancePerSecond := 1, SpeedPerSecond := 0.5 }
            = some (.error err)) ∧
        (∀ f, (fun _ => Except.error 7 : ProcessNoise → Except ℕ Filter) pn = .ok f →
          NewGeoFilter (fun _ => Except.error 7 : ProcessNoise → Except ℕ Filter)
            { BaseLat := 45, DistancePerSecond := 1, SpeedPerSecond := 0.5 }
            = some (.ok { filter := f })) ∧
        (mLat ≠ 0 → mLng ≠ 0 →
          pn.SX * mLat = pn.SY * mLng ∧
          Real.sqrt ((pn.SX * mLat) ^ 2 + (pn.SY * mLng) ^ 2) = |(1 : ℝ)|) :=
  ⟨by norm_num, by norm_num,
   NewGeoFilter_delegates (fun _ => Except.error 7 : ProcessNoise → Except ℕ Filter)
     { BaseLat := 45, DistancePerSecond := 1, SpeedPerSecond := 0.5 }
     (by norm_num) (by norm_num)⟩

/-- Claim C12: for every estimator state whose latitude component is in
`[-90, 90]`, the estimate returned by `GeoFilter.Estimate` has `Lat`, `Lng` and
`Altitude` equal to the state components 0, 1 and 2, and
`Speed = sqrt ((state[3] * mLat)^2 + (state[4] * mLng)^2)` with `mLat`, `mLng`
the coordinate factors at that latitude; hence `Speed ≥ 0`. -/
theorem Estimate_position_speed (g : GeoFilter) (state : ℕ → ℝ)
    (hs : g.filter.state = some state) (h1 : -90 ≤ state 0) (h2 : state 0 ≤ 90) :
    ∃ mLat mLng e, geo.FastMetersPerDegreeLat (state 0) = some mLat ∧
      geo.FastMetersPerDegreeLng (state 0) = some mLng ∧
      g.Estimate = some (some e) ∧
      e.Lat = state 0 ∧ e.Lng = state 1 ∧ e.Altitude = state 2 ∧
      e.Speed = Real.sqrt ((state 3 * mLat) ^ 2 + (state 4 * mLng) ^ 2) ∧ 0 ≤ e.Speed := by
  obtain ⟨mLat, mLng, hLat, hLng⟩ := factors_in_range (state 0) h1 h2
  refine ⟨mLat, mLng, _, hLat, hLng,
    Estimate_of_factors g state mLat mLng hs h1 h2 hLat hLng, rfl, rfl, rfl, ?_,
    Real.sqrt_nonneg _⟩
  show Real.sqrt (state 3 * mLat * (state 3 * mLat) + state 4 * mLng * (state 4 * mLng)) = _
  congr 1
  ring

theorem Estimate_position_speed_witness :
    (({ filter := { state := some (fun i : ℕ => (i : ℝ) - 45), cov := fun _ _ => 1 } } :
      GeoFilter).filter.state = some (fun i : ℕ => (i : ℝ) - 45)) ∧
    (-90 : ℝ) ≤ (fun i : ℕ => (i : ℝ) - 45) 0 ∧ (fun i : ℕ => (i : ℝ) - 45) 0 ≤ 90 ∧
    ∃ mLat mLng e, geo.FastMetersPerDegreeLat ((fun i : ℕ => (i : ℝ) - 45) 0) = some mLat ∧
      geo.FastMetersPerDegreeLng ((fun i : ℕ => (i : ℝ) - 45) 0) = some mLng ∧
      GeoFilter.Estimate
        { filter := { state := some (fun i : ℕ => (i : ℝ) - 45), cov := fun _ _ => 1 } }
        = some (some e) ∧
      e.Lat = (fun i : ℕ => (i : ℝ) - 45) 0 ∧ e.Lng = (fun i : ℕ => (i : ℝ) - 45) 1 ∧
      e.Altitude = (fun i : ℕ => (i : ℝ) - 45) 2 ∧
      e.Speed = Real.sqrt (((fun i : ℕ => (i : ℝ) - 45) 3 * mLat) ^ 2 +
        ((fun i : ℕ => (i : ℝ) - 45) 4 * mLng) ^ 2) ∧ 0 ≤ e.Speed :=
  ⟨rfl, by norm_num, by norm_num,
   Estimate_position_speed
     { filter := { state := some (fun i : ℕ => (i : ℝ) - 45), cov := fun _ _ => 1 } }
     (fun i : ℕ => (i : ℝ) - 45) rfl (by norm_num) (by norm_num)⟩

end kalman

/-! ## Package `kalman`: horizontal accuracy, speed round trip, direction -/

namespace kalman

/-- The horizontal accuracy `GeoFilter.Estimate` returns when both coordinate
factors are non-negative and both position variances are non-negative: the
larger of the two converted standard deviations. -/
theorem Estimate_HorizontalAccuracy_of_nonneg (g : GeoFilter) (state : ℕ → ℝ) (mLat mLng : ℝ)
    (hs : g.filter.state = some state) (h1 : -90 ≤ state 0) (h2 : state 0 ≤ 90)
    (hLat : geo.FastMetersPerDegreeLat (state 0) = some mLat)
    (hLng : geo.FastMetersPerDegreeLng (state 0) = some mLng)
    (hm1 : 0 ≤ mLat) (hm2 : 0 ≤ mLng) (hc0 : 0 ≤ g.filter.cov 0 0) (hc1 : 0 ≤ g.filter.cov 1 1) :
    ∃ e, g.Estimate = some (some e) ∧
      e.HorizontalAccuracy =
        max (Real.sqrt (g.filter.cov 0 0) * mLat) (Real.sqrt (g.filter.cov 1 1) * mLng) := by
  refine ⟨_, Estimate_of_factors g state mLat mLng hs h1 h2 hLat hLng, ?_⟩
  show max (Real.sqrt (g.filter.cov 0 0 * mLat * mLat))
    (Real.sqrt (g.filter.cov 1 1 * mLng * mLng)) = _
  rw [mul_assoc, mul_assoc, Real.sqrt_mul hc0, Real.sqrt_mul hc1, Real.sqrt_mul_self hm1,
    Real.sqrt_mul_self hm2]

/-- Within `[0, 90]` the horizontal accuracy is the larger of the two converted
standard deviations. -/
theorem Estimate_HorizontalAccuracy_north (g : GeoFilter) (state : ℕ → ℝ)
    (hs : g.filter.state = some state) (h1 : 0 ≤ state 0) (h2 : state 0 ≤ 90)
    (hc0 : 0 ≤ g.filter.cov 0 0) (hc1 : 0 ≤ g.filter.cov 1 1) :
    ∃ mLat mLng e, geo.FastMetersPerDegreeLat (state 0) = some mLat ∧
      geo.FastMetersPerDegreeLng (state 0) = some mLng ∧ g.Estimate = some (some e) ∧
      e.HorizontalAccuracy =
        max (Real.sqrt (g.filter.cov 0 0) * mLat) (Real.sqrt (g.filter.cov 1 1) * mLng) := by
  have hfac : ∃ mLat mLng, geo.FastMetersPerDegreeLat (state 0) = some mLat ∧
      geo.FastMetersPerDegreeLng (state 0) = some mLng ∧ 0 ≤ mLat ∧ 0 ≤ mLng := by
    rcases lt_or_eq_of_le h2 with h | h
    · obtain ⟨mLat, mLng, hLat, hLng, p1, p2⟩ := geo.Fast_pos_north (state 0) h1 h
      exact ⟨mLat, mLng, hLat, hLng, le_trans (by norm_num) p1, le_of_lt p2⟩
    · obtain ⟨-, -, e3, e4⟩ := @geo.Fast_at_ends ℝ _ _
      rw [h]
      exact ⟨_, _, e3, e4, by norm_num, le_refl 0⟩
  obtain ⟨mLat, mLng, hLat, hLng, p1, p2⟩ := hfac
  obtain ⟨e, he, hacc⟩ := Estimate_HorizontalAccuracy_of_nonneg g state mLat mLng hs
    (by linarith) h2 hLat hLng p1 p2 hc0 hc1
  exact ⟨mLat, mLng, e, hLat, hLng, he, hacc⟩

/-- The coordinate factors at the southern fractional latitude `-60.5`: the
indices are `61` and `60` and the weight is `-60.5 - 61 = -121.5`. -/
theorem factors_south :
    geo.FastMetersPerDegreeLat (-60.5 : ℝ) = some 113472.9142525 ∧
    geo.FastMetersPerDegreeLng (-60.5 : ℝ) = some (-151534.064735) := by
  have hf : ⌊(-60.5 : ℝ)⌋ = -61 := by
    rw [Int.floor_eq_iff]
    norm_num
  have hc : ⌈(-60.5 : ℝ)⌉ = -60 := by
    rw [Int.ceil_eq_iff]
    norm_num
  have a0 : |(-61 : ℤ)| = 61 := by decide
  have a1 : |(-60 : ℤ)| = 60 := by decide
  have i0 : geo.index (geo.metersPerDegreeLat : List ℝ) 61 = some 111429.062029 := rfl
  have i1 : geo.index (geo.metersPerDegreeLat : List ℝ) 60 = some 111412.240200 := rfl
  have j0 : geo.index (geo.metersPerDegreeLng : List ℝ) 61 = some 54107.456194 := rfl
  have j1 : geo.index (geo.metersPerDegreeLng : List ℝ) 60 = some 55799.979000 := rfl
  constructor
  · rw [geo.FastMetersPerDegreeLat_eq, geo.interpolate_unfold, hf, hc, a0, a1, i0, i1]
    norm_num
  · rw [geo.FastMetersPerDegreeLng_eq, geo.interpolate_unfold, hf, hc, a0, a1, j0, j1]
    norm_num

/-- Claim C13, evaluated on the code at the state latitude `-60.5` with both
position variances 1: the longitude factor is `-151534.064735`, the estimate
carries the horizontal accuracy `sqrt (1 * mLng * mLng) = 151534.064735`, while
the larger of the two converted standard deviations `sqrt 1 * mLat` and
`sqrt 1 * mLng` is `113472.9142525`. -/
theorem Estimate_HorizontalAccuracy_south :
    geo.FastMetersPerDegreeLat (-60.5 : ℝ) = some 113472.9142525 ∧
    geo.FastMetersPerDegreeLng (-60.5 : ℝ) = some (-151534.064735) ∧
    (∃ e, GeoFilter.Estimate
        { filter := { state := some (fun i => if i = 0 then -60.5 else 0),
                      cov := fun i j => if i = j then 1 else 0 } } = some (some e) ∧
      e.HorizontalAccuracy = 151534.064735) ∧
    max (Real.sqrt 1 * 113472.9142525) (Real.sqrt 1 * (-151534.064735)) =
      (113472.9142525 : ℝ) := by
  obtain ⟨hLat, hLng⟩ := factors_south
  refine ⟨hLat, hLng, ⟨_, Estimate_of_factors _ (fun i => if i = 0 then -60.5 else 0)
    113472.9142525 (-151534.064735) rfl (by norm_num [_LAT]) (by norm_num [_LAT])
    (by simpa [_LAT] using hLat) (by simpa [_LAT] using hLng), ?_⟩, ?_⟩
  · show max (Real.sqrt ((if _LAT = _LAT then (1 : ℝ) else 0) * 113472.9142525 * 113472.9142525))
      (Real.sqrt ((if _LNG = _LNG then (1 : ℝ) else 0) * (-151534.064735) * (-151534.064735)))
      = 151534.064735
    rw [if_pos rfl, if_pos rfl, one_mul, one_mul, Real.sqrt_mul_self (by norm_num),
      ← neg_mul_neg, neg_neg, Real.sqrt_mul_self (by norm_num)]
    exact max_eq_right (by norm_num)
  · rw [Real.sqrt_one, one_mul, one_mul]
    exact max_eq_left (by norm_num)

/-- The speed `Estimate` decodes from a state whose components 3 and 4 are
`s * cos (h * pi / 180) / mLat` and `s * sin (h * pi / 180) / mLng`, with both
coordinate factors at the state latitude non-zero, is `|s|`. -/
theorem Estimate_speed_of_components (g : GeoFilter) (state : ℕ → ℝ) (s h mLat mLng : ℝ)
    (hs : g.filter.state = some state)
    (hLat : geo.FastMetersPerDegreeLat (state 0) = some mLat)
    (hLng : geo.FastMetersPerDegreeLng (state 0) = some mLng)
    (hm1 : mLat ≠ 0) (hm2 : mLng ≠ 0)
    (hvx : state 3 = s * Real.cos (h * Real.pi / 180) / mLat)
    (hvy : state 4 = s * Real.sin (h * Real.pi / 180) / mLng) :
    ∃ e, g.Estimate = some (some e) ∧ e.Speed = |s| := by
  have hr := (geo.interpolate_isSome_iff (geo.metersPerDegreeLat : List ℝ)
    geo.metersPerDegreeLat_length (state 0)).mp ⟨mLat, hLat⟩
  refine ⟨_, Estimate_of_factors g state mLat mLng hs hr.1 hr.2 hLat hLng, ?_⟩
  show Real.sqrt (state 3 * mLat * (state 3 * mLat) + state 4 * mLng * (state 4 * mLng)) = |s|
  rw [hvx, hvy, div_mul_cancel₀ _ hm1, div_mul_cancel₀ _ hm2, ← Real.sqrt_sq_eq_abs]
  congr 1
  have := Real.cos_sq_add_sin_sq (h * Real.pi / 180)
  linear_combination s ^ 2 * this

/-- Claim C19: speed round trip across `Observe` and `Estimate`.  For every
observation latitude at which both coordinate factors exist and are non-zero,
every speed and heading in degrees, and every estimator update that takes the
latitude and the two horizontal velocity components of the measurement as the
state components 0, 3 and 4: after `Observe`, the state components 3 and 4 are
the components `Observe` builds, `s * cos (h * pi / 180) / mLat` and
`s * sin (h * pi / 180) / mLng`, and the `Speed` computed by `Estimate` equals
`|s|`. -/
theorem speed_round_trip {ε : Type} (filterObserve : Filter → ℝ → Observed → Filter × Option ε)
    (g : GeoFilter) (td : ℝ) (ob : GeoObserved) (mLat mLng : ℝ)
    (hLat : geo.FastMetersPerDegreeLat ob.Lat = some mLat)
    (hLng : geo.FastMetersPerDegreeLng ob.Lat = some mLng)
    (hm1 : mLat ≠ 0) (hm2 : mLng ≠ 0)
    (hadopt : ∀ f t m, ∃ state, (filterObserve f t m).1.state = some state ∧
      state _LAT = m.X ∧ state _VLAT = m.VX ∧ state _VLNG = m.VY) :
    ∃ g1 err state e, g.Observe filterObserve td ob = some (g1, err) ∧
      g1.filter.state = some state ∧ state _LAT = ob.Lat ∧
      state _VLAT = ob.Speed * Real.cos (ob.Direction * Real.pi / 180) / mLat ∧
      state _VLNG = ob.Speed * Real.sin (ob.Direction * Real.pi / 180) / mLng ∧
      g1.Estimate = some (some e) ∧ e.Speed = |ob.Speed| := by
  have hO := Observe_of_factors filterObserve g td ob mLat mLng hLat hLng
  obtain ⟨state, hst, h0, h3, h4⟩ := hadopt g.filter td
    { X := ob.Lat, Y := ob.Lng, Z := ob.Altitude,
      VX := ob.Speed * Real.cos (ob.Direction * Real.pi / 180) / mLat,
      VY := ob.Speed * Real.sin (ob.Direction * Real.pi / 180) / mLng,
      VZ := 0,
      XA := ob.HorizontalAccuracy / mLat,
      YA := ob.HorizontalAccuracy / mLng,
      ZA := ob.VerticalAccuracy,
      VXA := speedLatAccuracy ob.Speed ob.SpeedAccuracy (ob.Direction * Real.pi / 180)
        (ob.DirectionAccuracy * Real.pi / 180) mLat,
      VYA := speedLngAccuracy ob.Speed ob.SpeedAccuracy (ob.Direction * Real.pi / 180)
        (ob.DirectionAccuracy * Real.pi / 180) mLng,
      VZA := 0.1 }
  have h0' : state 0 = ob.Lat := h0
  have hLat' : geo.FastMetersPerDegreeLat (state 0) = some mLat := by rw [h0']; exact hLat
  have hLng' : geo.FastMetersPerDegreeLng (state 0) = some mLng := by rw [h0']; exact hLng
  obtain ⟨e, he, hsp⟩ := Estimate_speed_of_components ⟨_⟩ state ob.Speed ob.Direction mLat mLng
    hst hLat' hLng' hm1 hm2 h3 h4
  exact ⟨_, _, state, e, hO, hst, h0, h3, h4, he, hsp⟩

theorem speed_round_trip_witness :
    geo.FastMetersPerDegreeLat (0 : ℝ) = some 110574.272700 ∧
    geo.FastMetersPerDegreeLng (0 : ℝ) = some 111319.458000 ∧
    (110574.272700 : ℝ) ≠ 0 ∧ (111319.458000 : ℝ) ≠ 0 ∧
    (∀ (f : Filter) (t : ℝ) (m : Observed), ∃ state,
      ((fun (f : Filter) (_ : ℝ) (m : Observed) =>
          (({ state := some (fun i : ℕ =>
                if i = 0 then m.X else if i = 3 then m.VX else if i = 4 then m.VY else 0)
              cov := f.cov } : Filter), (none : Option Unit))) f t m).1.state = some state ∧
      state _LAT = m.X ∧ state _VLAT = m.VX ∧ state _VLNG = m.VY) ∧
    ∃ g1 err state e,
      GeoFilter.Observe
        (fun (f : Filter) (_ : ℝ) (m : Observed) =>
          (({ state := some (fun i : ℕ =>
                if i = 0 then m.X else if i = 3 then m.VX else if i = 4 then m.VY else 0)
              cov := f.cov } : Filter), (none : Option Unit)))
        { filter := { state := none, cov := fun _ _ => 0 } } 1
        { Lat := 0, Lng := -93, Altitude := 300, Speed := 5, SpeedAccuracy := 1,
          Direction := 90, DirectionAccuracy := 10, HorizontalAccuracy := 5,
          VerticalAccuracy := 10 } = some (g1, err) ∧
      g1.filter.state = some state ∧ state _LAT = 0 ∧
      state _VLAT = 5 * Real.cos (90 * Real.pi / 180) / 110574.272700 ∧
      state _VLNG = 5 * Real.sin (90 * Real.pi / 180) / 111319.458000 ∧
      g1.Estimate = some (some e) ∧ e.Speed = |(5 : ℝ)| :=
  ⟨geo.Fast_at_ends.1, geo.Fast_at_ends.2.1, by norm_num, by norm_num,
   fun _ _ _ => ⟨_, rfl, rfl, rfl, rfl⟩,
   speed_round_trip
     (fun (f : Filter) (_ : ℝ) (m : Observed) =>
       (({ state := some (fun i : ℕ =>
             if i = 0 then m.X else if i = 3 then m.VX else if i = 4 then m.VY else 0)
           cov := f.cov } : Filter), (none : Option Unit)))
     { filter := { state := none, cov := fun _ _ => 0 } } 1
     { Lat := 0, Lng := -93, Altitude := 300, Speed := 5, SpeedAccuracy := 1,
       Direction := 90, DirectionAccuracy := 10, HorizontalAccuracy := 5,
       VerticalAccuracy := 10 }
     110574.272700 111319.458000 geo.Fast_at_ends.1 geo.Fast_at_ends.2.1
     (by norm_num) (by norm_num) (fun _ _ _ => ⟨_, rfl, rfl, rfl, rfl⟩)⟩

/-- The estimate at the equator for a state with the velocity components 2
and 3 (degrees per second) and a zero covariance. -/
theorem Estimate_moving_at_equator :
    GeoFilter.Estimate
        { filter :=
          { state := some (fun i : ℕ => if i = 3 then 2 else if i = 4 then 3 else 0)
            cov := fun _ _ => 0 } } =
      some (some
        { Lat := 0, Lng := 0, Altitude := 0,
          Speed := Real.sqrt (2 * 110574.272700 * (2 * 110574.272700) +
            3 * 111319.458000 * (3 * 111319.458000)),
          Direction := 0,
          HorizontalAccuracy := 0 }) := by
  rw [Estimate_of_factors _ (fun i : ℕ => if i = 3 then 2 else if i = 4 then 3 else 0)
    110574.272700 111319.458000 rfl (by norm_num [_LAT]) (by norm_num [_LAT])
    (by simpa [_LAT] using geo.Fast_at_ends.1) (by simpa [_LAT] using geo.Fast_at_ends.2.1)]
  simp [_LAT, _LNG, _ALTITUDE, _VLAT, _VLNG]

/-- Claim C20: for every estimator state for which `GeoFilter.Estimate` returns
an estimate, the `Direction` field of the estimate is 0, whatever the velocity
components of the state are. -/
theorem Estimate_Direction_zero (g : GeoFilter) (e : GeoEstimated)
    (he : g.Estimate = some (some e)) : e.Direction = 0 := by
  cases hs : g.filter.state with
  | none =>
    rw [Estimate_of_no_state g hs] at he
    exact Option.noConfusion (Option.some.inj he)
  | some state =>
    by_cases hg : state _LAT < -90 ∨ state _LAT > 90
    · rw [Estimate_of_guard g state hs hg] at he
      exact Option.noConfusion (Option.some.inj he)
    · push_neg at hg
      obtain ⟨mLat, mLng, hLat, hLng⟩ := factors_in_range (state _LAT) hg.1 hg.2
      rw [Estimate_of_factors g state mLat mLng hs hg.1 hg.2 hLat hLng] at he
      rw [← Option.some.inj (Option.some.inj he)]

theorem Estimate_Direction_zero_witness :
    GeoFilter.Estimate
        { filter :=
          { state := some (fun i : ℕ => if i = 3 then 2 else if i = 4 then 3 else 0)
            cov := fun _ _ => 0 } } =
      some (some
        { Lat := 0, Lng := 0, Altitude := 0,
          Speed := Real.sqrt (2 * 110574.272700 * (2 * 110574.272700) +
            3 * 111319.458000 * (3 * 111319.458000)),
          Direction := 0,
          HorizontalAccuracy := 0 }) ∧
    ({ Lat := 0, Lng := 0, Altitude := 0,
       Speed := Real.sqrt (2 * 110574.272700 * (2 * 110574.272700) +
         3 * 111319.458000 * (3 * 111319.458000)),
       Direction := 0,
       HorizontalAccuracy := 0 } : GeoEstimated).Direction = 0 :=
  ⟨Estimate_moving_at_equator, Estimate_Direction_zero _ _ Estimate_moving_at_equator⟩

end kalman

/-! ## Package `kalman`: `Estimate` over `float64` -/

namespace kalman

theorem guard64_num (lat : ℝ) :
    ((geo.float64.num lat).lt (.num (-90)) || (geo.float64.num lat).gt (.num 90)) = true ↔
      (lat < -90 ∨ lat > 90) := by
  simp [geo.float64.lt, geo.float64.gt]

theorem guard64_NaN :
    (geo.float64.NaN.lt (.num (-90)) || geo.float64.NaN.gt (.num 90)) = false := by
  simp [geo.float64.lt, geo.float64.gt]

/-- At a number in `[-90, 90]` both `float64` factor lookups return a number. -/
theorem factors64_in_range (intNaN : ℤ) (lat : ℝ) (h1 : -90 ≤ lat) (h2 : lat ≤ 90) :
    ∃ mLat mLng : ℝ,
      geo.FastMetersPerDegreeLat64 intNaN (.num lat) = some (.num mLat) ∧
      geo.FastMetersPerDegreeLng64 intNaN (.num lat) = some (.num mLng) := by
  obtain ⟨mLat, mLng, hLat, hLng⟩ := factors_in_range lat h1 h2
  refine ⟨mLat, mLng, ?_, ?_⟩
  · show (geo.FastMetersPerDegreeLat lat).map geo.float64.num = _
    rw [hLat]
    rfl
  · show (geo.FastMetersPerDegreeLng lat).map geo.float64.num = _
    rw [hLng]
    rfl

/-- At NaN the `float64` factor lookup panics when the implementation's
`int(NaN)` is outside `0..90`. -/
theorem FastMetersPerDegreeLat64_NaN (intNaN : ℤ) (h : intNaN < 0 ∨ 90 < intNaN) :
    geo.FastMetersPerDegreeLat64 intNaN .NaN = none := by
  have hi := (geo.index_eq_none_iff (geo.metersPerDegreeLat : List ℝ)
    geo.metersPerDegreeLat_length intNaN).mpr h
  show (geo.index (geo.metersPerDegreeLat : List ℝ) intNaN).bind _ = none
  rw [hi]
  rfl

/-- A state whose latitude is NaN passes the guard of `Estimate`; the lookup
then panics when the implementation's `int(NaN)` is outside `0..90`, as with the
gc compiler on amd64, where it is the least `int64`. -/
theorem Estimate64_NaN_panics (intNaN : ℤ) (h : intNaN < 0 ∨ 90 < intNaN)
    (g : GeoFilter64) (state : ℕ → geo.float64)
    (hs : g.filter.state = some state) (hnan : state _LAT = .NaN) :
    g.Estimate intNaN = none := by
  unfold GeoFilter64.Estimate
  rw [hs]
  simp only [hnan, guard64_NaN, FastMetersPerDegreeLat64_NaN intNaN h]
  rfl

/-- Claim C6: for every estimator state and covariance whose latitude component
is a real number, in or out of range, and for an estimator without a state,
`Estimate` does not panic; whenever it reaches the coordinate-factor lookups (a
state whose latitude passes the guard) both derived indices are within `0..90`
and both lookups return a value.  The other components of the state and the
covariance may be NaN, and `int(NaN)` may be any integer. -/
theorem Estimate_never_panics (intNaN : ℤ) (g : GeoFilter64)
    (hreal : ∀ state, g.filter.state = some state →
      ∃ lat : ℝ, state _LAT = geo.float64.num lat) :
    g.Estimate intNaN ≠ none ∧
    ∀ (state : ℕ → geo.float64) (lat : ℝ), g.filter.state = some state →
      state _LAT = geo.float64.num lat →
      ((geo.float64.num lat).lt (.num (-90)) || (geo.float64.num lat).gt (.num 90)) = false →
      (0 ≤ geo.toInt (geo.mathAbs (geo.mathFloor lat)) ∧
        geo.toInt (geo.mathAbs (geo.mathFloor lat)) ≤ 90 ∧
        0 ≤ geo.toInt (geo.mathAbs (geo.mathCeil lat)) ∧
        geo.toInt (geo.mathAbs (geo.mathCeil lat)) ≤ 90) ∧
      (∃ mLat, geo.FastMetersPerDegreeLat64 intNaN (state _LAT) = some mLat) ∧
      (∃ mLng, geo.FastMetersPerDegreeLng64 intNaN (state _LAT) = some mLng) := by
  constructor
  · intro hn
    unfold GeoFilter64.Estimate at hn
    cases hs : g.filter.state with
    | none =>
      rw [hs] at hn
      exact Option.noConfusion hn
    | some state =>
      obtain ⟨lat, hlat⟩ := hreal state hs
      rw [hs] at hn
      simp only [hlat] at hn
      by_cases hg : lat < -90 ∨ lat > 90
      · rw [if_pos ((guard64_num lat).mpr hg)] at hn
        exact Option.noConfusion hn
      · have hg' := hg
        push_neg at hg'
        obtain ⟨mLat, mLng, hLat, hLng⟩ := factors64_in_range intNaN lat hg'.1 hg'.2
        rw [if_neg (fun h => hg ((guard64_num lat).mp h)), hLat, hLng] at hn
        exact Option.noConfusion hn
  · intro state lat _ hlat hguard
    have hg : ¬ (lat < -90 ∨ lat > 90) := by
      intro h
      rw [(guard64_num lat).mpr h] at hguard
      exact Bool.noConfusion hguard
    push_neg at hg
    obtain ⟨mLat, mLng, hLat, hLng⟩ := factors64_in_range intNaN lat hg.1 hg.2
    rw [hlat]
    refine ⟨⟨?_, ?_, ?_, ?_⟩, ⟨_, hLat⟩, ⟨_, hLng⟩⟩
    · rw [geo.i0_eq]
      exact abs_nonneg _
    · rw [geo.i0_eq]
      exact geo.abs_floor_le _ hg.1 hg.2
    · rw [geo.i1_eq]
      exact abs_nonneg _
    · rw [geo.i1_eq]
      exact geo.abs_ceil_le _ hg.1 hg.2

theorem Estimate_never_panics_witness :
    (∀ state,
      ({ filter := { state := some (fun _ => geo.float64.num 45),
                     cov := fun _ _ => geo.float64.NaN } } : GeoFilter64).filter.state
        = some state →
      ∃ lat : ℝ, state _LAT = geo.float64.num lat) ∧
    (GeoFilter64.Estimate (-9223372036854775808)
        { filter := { state := some (fun _ => geo.float64.num 45),
                      cov := fun _ _ => geo.float64.NaN } } ≠ none ∧
      ∀ (state : ℕ → geo.float64) (lat : ℝ),
        ({ filter := { state := some (fun _ => geo.float64.num 45),
                       cov := fun _ _ => geo.float64.NaN } } : GeoFilter64).filter.state
          = some state →
        state _LAT = geo.float64.num lat →
        ((geo.float64.num lat).lt (.num (-90)) || (geo.float64.num lat).gt (.num 90)) = false →
        (0 ≤ geo.toInt (geo.mathAbs (geo.mathFloor lat)) ∧
          geo.toInt (geo.mathAbs (geo.mathFloor lat)) ≤ 90 ∧
          0 ≤ geo.toInt (geo.mathAbs (geo.mathCeil lat)) ∧
          geo.toInt (geo.mathAbs (geo.mathCeil lat)) ≤ 90) ∧
        (∃ mLat, geo.FastMetersPerDegreeLat64 (-9223372036854775808) (state _LAT) = some mLat) ∧
        (∃ mLng, geo.FastMetersPerDegreeLng64 (-9223372036854775808) (state _LAT)
          = some mLng)) :=
  ⟨fun state hs => ⟨45, by rw [← Option.some.inj hs]⟩,
   Estimate_never_panics (-9223372036854775808)
     { filter := { state := some (fun _ => geo.float64.num 45),
                   cov := fun _ _ => geo.float64.NaN } }
     (fun state hs => ⟨45, by rw [← Option.some.inj hs]⟩)⟩

/-- On a real-valued estimator with non-negative position variances the
`float64` model of `Estimate` returns what `GeoFilter.Estimate` returns. -/
theorem Estimate64_of_real (intNaN : ℤ) (g : GeoFilter)
    (hc0 : 0 ≤ g.filter.cov _LAT _LAT) (hc1 : 0 ≤ g.filter.cov _LNG _LNG) :
    GeoFilter64.Estimate intNaN { filter := g.filter.to64 } =
      g.Estimate.map (Option.map GeoEstimated.to64) := by
  cases hs : g.filter.state with
  | none =>
    rw [Estimate_of_no_state g hs]
    unfold GeoFilter64.Estimate Filter.to64
    simp only [hs, Option.map_none']
    rfl
  | some state =>
    have hs64 : (g.filter.to64).state = some (fun i => geo.float64.num (state i)) := by
      unfold Filter.to64
      simp only [hs, Option.map_some']
    by_cases hg : state _LAT < -90 ∨ state _LAT > 90
    · rw [Estimate_of_guard g state hs hg]
      unfold GeoFilter64.Estimate
      simp only [hs64, if_pos ((guard64_num (state _LAT)).mpr hg)]
      rfl
    · have hg2 := hg
      push_neg at hg2
      obtain ⟨mLat, mLng, hLat, hLng⟩ := factors_in_range (state _LAT) hg2.1 hg2.2
      have hLat64 : geo.FastMetersPerDegreeLat64 intNaN (.num (state _LAT))
          = some (.num mLat) := by
        show (geo.FastMetersPerDegreeLat (state _LAT)).map geo.float64.num = _
        rw [hLat]
        rfl
      have hLng64 : geo.FastMetersPerDegreeLng64 intNaN (.num (state _LAT))
          = some (.num mLng) := by
        show (geo.FastMetersPerDegreeLng (state _LAT)).map geo.float64.num = _
        rw [hLng]
        rfl
      rw [Estimate_of_factors g state mLat mLng hs hg2.1 hg2.2 hLat hLng]
      unfold GeoFilter64.Estimate
      have hsp : ¬ (state _VLAT * mLat * (state _VLAT * mLat) +
          state _VLNG * mLng * (state _VLNG * mLng) < 0) := by
        have h1 := mul_self_nonneg (state _VLAT * mLat)
        have h2 := mul_self_nonneg (state _VLNG * mLng)
        linarith
      have ha0 : ¬ (g.filter.cov _LAT _LAT * mLat * mLat < 0) := by
        have := mul_nonneg hc0 (mul_self_nonneg mLat)
        rw [← mul_assoc] at this
        linarith
      have ha1 : ¬ (g.filter.cov _LNG _LNG * mLng * mLng < 0) := by
        have := mul_nonneg hc1 (mul_self_nonneg mLng)
        rw [← mul_assoc] at this
        linarith
      have hcov : ∀ i j, (g.filter.to64).cov i j = geo.float64.num (g.filter.cov i j) :=
        fun _ _ => rfl
      simp only [hs64]
      simp only [if_neg (fun h => hg ((guard64_num (state _LAT)).mp h)), hLat64, hLng64, hcov,
        Option.bind_eq_bind, Option.some_bind, Option.pure_def, Option.map_some',
        geo.float64.mul, geo.float64.add, geo.float64.sqrt, geo.float64.max, if_neg hsp,
        if_neg ha0, if_neg ha1, GeoEstimated.to64]

end kalman
